import Mathlib

/-!
Verification development for the PrivBatch agent strategy runtime.

The TypeScript strategy runtime (BaseStrategy and the momentum, arbitrage,
liquidity and mean-reversion agents) is embedded shallowly:

* JavaScript `number` values (prices, percentages, confidences) are modelled
  as exact rationals `ℚ`; `Math.floor` is `Int.floor`, `Math.min`/`Math.max`
  are `min`/`max`, and `Math.sqrt` is `Rat.sqrt` (exact on rational squares).
* `bigint` values (token amounts, liquidity, volume) are modelled as `ℤ`;
  bigint division truncates toward zero, which is `Int.tdiv`.
* `Date.now()` is passed explicitly as a `now : ℤ` parameter (milliseconds),
  and the per-pool mutable maps of the strategy classes are passed and
  returned explicitly.
* Strings such as `marketData.currentPrice` that the code immediately parses
  (`parseFloat`, `BigInt(...)`) are modelled by their parsed values.
* The `reasoning` string of a decision is omitted: no claim concerns it.

Field and definition names follow the source.  Names that the source ends in
`Ratio` carry a `Q` suffix here (`imbalanceRatioQ` for `imbalanceRatio`, and
so on); this is purely a renaming.
-/

/-- Swap direction of a trade decision: `ZERO_FOR_ONE` sells token0 for
token1, `ONE_FOR_ZERO` sells token1 for token0. -/
inductive SwapDirection
  | ZERO_FOR_ONE
  | ONE_FOR_ZERO
  deriving DecidableEq, Repr

/-- One entry of `marketData.recentSwaps`; the strategies only read its
`zeroForOne` flag. -/
structure RecentSwap where
  zeroForOne : Bool
  deriving DecidableEq, Repr

/-- The `MarketData` snapshot consumed by `shouldTrade`, with parsed values:
`currentPrice` is the `parseFloat` of the price string, the liquidity and
volume fields are the `BigInt(...)` of the corresponding strings. -/
structure MarketData where
  poolId : String
  currentPrice : ℚ
  priceChange1h : ℚ
  priceChange24h : ℚ
  totalLiquidity : ℤ
  liquidity0 : ℤ
  liquidity1 : ℤ
  volume1h : ℤ
  volume24h : ℤ
  recentSwaps : List RecentSwap
  timestamp : ℤ
  deriving DecidableEq, Repr

/-- The `config.tradingSettings` block: amount bounds (bigint) and the
default slippage tolerance in basis points. -/
structure TradingSettings where
  minAmountIn : ℤ
  maxAmountIn : ℤ
  defaultSlippageBps : ℤ
  deriving DecidableEq, Repr

/-- A `TradeDecision` as returned by `shouldTrade`.  The optional fields are
set exactly on positive decisions; the `reasoning` string is omitted. -/
structure TradeDecision where
  shouldTrade : Bool
  direction : Option SwapDirection
  amountIn : Option ℤ
  minAmountOut : Option ℤ
  confidence : ℚ
  timestamp : ℤ
  deriving DecidableEq, Repr

/-- `BaseStrategy.noTradeDecision`: a negative decision with confidence 0. -/
def noTradeDecision (now : ℤ) : TradeDecision :=
  { shouldTrade := false, direction := none, amountIn := none,
    minAmountOut := none, confidence := 0, timestamp := now }

/-- The constant `BigInt(1e18)` used for price scaling. -/
def WAD : ℤ := 10 ^ 18

/-- `BaseStrategy.calculateMinAmountOut`: scale the price to 18 decimals,
guard against a non-positive scaled price, compute the expected output for
the direction and apply the slippage tolerance, all in truncating bigint
arithmetic. -/
def calculateMinAmountOut (amountIn : ℤ) (currentPrice : ℚ)
    (direction : SwapDirection) (slippageBps : ℤ) : ℤ :=
  let price : ℤ := ⌊currentPrice * (10 : ℚ) ^ 18⌋
  if price ≤ 0 then 0
  else
    let expectedOut : ℤ :=
      match direction with
      | SwapDirection.ZERO_FOR_ONE => (amountIn * price).tdiv WAD
      | SwapDirection.ONE_FOR_ZERO => (amountIn * WAD).tdiv price
    (expectedOut * (10000 - slippageBps)).tdiv 10000

/-- `BaseStrategy.lastTradeTimestamp` is a map defaulting to 0 on absent
pools (`this.lastTradeTimestamp.get(poolId) || 0`); it is modelled as a
total function. `isCooldownActive` compares the elapsed time to the cooldown
window. -/
def isCooldownActive (lastTradeTimestamp : String → ℤ) (poolId : String)
    (cooldownMs : ℤ) (now : ℤ) : Bool :=
  now - lastTradeTimestamp poolId < cooldownMs

/-- `BaseStrategy.recordTrade`: store the current timestamp for the pool. -/
def recordTrade (lastTradeTimestamp : String → ℤ) (poolId : String)
    (now : ℤ) : String → ℤ :=
  Function.update lastTradeTimestamp poolId now

/-- Configuration of the momentum strategy (`MomentumConfig`), with parsed
values: `minVolumeThreshold` is the `BigInt(...)` of the configured string. -/
structure MomentumConfig where
  momentumThreshold1h : ℚ
  momentumThreshold24h : ℚ
  shortTermWeight : ℚ
  longTermWeight : ℚ
  minVolumeThreshold : ℤ
  cooldownPeriod : ℚ
  maxVolatilityThreshold : ℚ
  requireVolumeConfirmation : Bool
  trendConfirmationSwaps : ℕ
  deriving DecidableEq, Repr

/-- Number of swaps of the window aligned with the expected trend: a swap
with `zeroForOne == false` is aligned with an expected uptrend, a swap with
`zeroForOne == true` with an expected downtrend (the loop body of
`MomentumAgent.confirmTrend`). -/
def alignedCount (relevantSwaps : List RecentSwap) (expectingUptrend : Bool) : ℕ :=
  (relevantSwaps.filter (fun s => s.zeroForOne != expectingUptrend)).length

/-- `MomentumAgent.confirmTrend`: not confirmed when fewer than `minSwaps`
recent swaps are available; otherwise confirmed when strictly more than 60%
of the first `minSwaps` swaps align with the expected trend. -/
def confirmTrend (recentSwaps : List RecentSwap) (expectingUptrend : Bool)
    (minSwaps : ℕ) : Bool :=
  if recentSwaps.length < minSwaps then false
  else
    let relevantSwaps := recentSwaps.take minSwaps
    decide (((alignedCount relevantSwaps expectingUptrend : ℚ) /
      (relevantSwaps.length : ℚ)) > 3 / 5)

/-- JavaScript `Math.sign`, restricted to rational inputs. -/
def signOf (q : ℚ) : ℤ :=
  if 0 < q then 1 else if q < 0 then -1 else 0

/-- `MomentumAgent.calculateMomentumConfidence`: weighted combination of the
1h and 24h signals (each capped at 1), an alignment bonus of ±0.15, clamped
to the interval [0.1, 1.0]. -/
def calculateMomentumConfidence (momentum1h momentum24h : ℚ)
    (config : MomentumConfig) : ℚ :=
  let shortTermSignal := min (|momentum1h| / (config.momentumThreshold1h * 3)) 1
  let longTermSignal := min (|momentum24h| / (config.momentumThreshold24h * 3)) 1
  let alignmentBonus : ℚ :=
    if signOf momentum1h = signOf momentum24h then 3 / 20 else -(3 / 20)
  let rawConfidence := shortTermSignal * config.shortTermWeight +
    longTermSignal * config.longTermWeight + alignmentBonus
  max (1 / 10) (min rawConfidence 1)

/-- `MomentumAgent.calculateBaseAmount`: scale linearly with confidence
between the configured amount bounds, in truncating bigint arithmetic. -/
def calculateBaseAmount (confidence : ℚ) (tradingSettings : TradingSettings) : ℤ :=
  let range := tradingSettings.maxAmountIn - tradingSettings.minAmountIn
  tradingSettings.minAmountIn + (range * ⌊confidence * 100⌋).tdiv 100

/-- `MomentumAgent.shouldTrade`, for the pool of the given snapshot.
`lastTrade` is the stored last-trade timestamp for the pool (0 when absent);
the update of that map on a positive decision (`now`) is implicit in the
returned `timestamp`. -/
def momentumShouldTrade (lastTrade : ℤ) (marketData : MarketData)
    (strategyConfig : MomentumConfig) (tradingSettings : TradingSettings)
    (now : ℤ) : TradeDecision :=
  if ((now - lastTrade : ℤ) : ℚ) < strategyConfig.cooldownPeriod * 1000 then
    noTradeDecision now
  else
  let momentum1h := marketData.priceChange1h
  let momentum24h := marketData.priceChange24h
  if |momentum1h| > strategyConfig.maxVolatilityThreshold ∨
      |momentum24h| > strategyConfig.maxVolatilityThreshold then
    noTradeDecision now
  else
  let compositeMomentum := momentum1h * strategyConfig.shortTermWeight +
    momentum24h * strategyConfig.longTermWeight
  let weightedThreshold :=
    strategyConfig.momentumThreshold1h * strategyConfig.shortTermWeight +
    strategyConfig.momentumThreshold24h * strategyConfig.longTermWeight
  if |compositeMomentum| < weightedThreshold then noTradeDecision now
  else if strategyConfig.requireVolumeConfirmation ∧
      marketData.volume1h < strategyConfig.minVolumeThreshold then
    noTradeDecision now
  else
  let trendConfirmed := confirmTrend marketData.recentSwaps
    (decide (compositeMomentum > 0)) strategyConfig.trendConfirmationSwaps
  let direction :=
    if compositeMomentum > 0 then SwapDirection.ZERO_FOR_ONE
    else SwapDirection.ONE_FOR_ZERO
  let conf0 := calculateMomentumConfidence momentum1h momentum24h strategyConfig
  let confidence :=
    if trendConfirmed then min (conf0 * (6 / 5)) 1 else conf0 * (7 / 10)
  let baseAmount := calculateBaseAmount confidence tradingSettings
  let minOut := calculateMinAmountOut baseAmount marketData.currentPrice
    direction tradingSettings.defaultSlippageBps
  { shouldTrade := true, direction := some direction,
    amountIn := some baseAmount, minAmountOut := some minOut,
    confidence := confidence, timestamp := now }

/-- A reference price for arbitrage detection, with `price` the `parseFloat`
of the source string. -/
structure ReferencePrice where
  source : String
  price : ℚ
  timestamp : ℤ
  confidence : ℚ
  deriving DecidableEq, Repr

/-- Configuration of the arbitrage strategy (`ArbitrageConfig`), with parsed
values.  `sourceWeights` is the configured record, `none` on absent keys;
`enableCrossPoolArbitrage` is omitted because `shouldTrade` never reads it. -/
structure ArbitrageConfig where
  minSpreadThreshold : ℚ
  maxSpreadThreshold : ℚ
  estimatedGasCost : ℚ
  minNetProfit : ℚ
  referencePrices : List ReferencePrice
  cooldownPeriod : ℚ
  minLiquidity : ℤ
  maxSlippageBps : ℤ
  sourceWeights : String → Option ℚ

/-- A detected arbitrage opportunity; `spreadPercent` stores the absolute
spread, as in the source. -/
structure ArbitrageOpportunity where
  spreadPercent : ℚ
  direction : SwapDirection
  referencePrice : ℚ
  estimatedProfit : ℚ
  source : String
  confidence : ℚ
  deriving DecidableEq, Repr

/-- JavaScript `parseFloat(x.toFixed(6))` for a non-negative number:
round to six decimal places, halves away from zero. -/
def toFixed6 (q : ℚ) : ℚ :=
  ((⌊q * 1000000 + 1 / 2⌋ : ℤ) : ℚ) / 1000000

/-- The loop body of `ArbitrageAgent.detectOpportunities` for one reference
price: skip non-positive reference prices and spreads outside the configured
thresholds, otherwise build the opportunity.  The `|| 1.0` default on the
source weight maps both an absent and a zero weight to 1. -/
def mkOpportunity (currentPrice : ℚ) (config : ArbitrageConfig)
    (ref : ReferencePrice) : Option ArbitrageOpportunity :=
  if ref.price ≤ 0 then none
  else
    let spreadPercent := (ref.price - currentPrice) / currentPrice * 100
    let absSpread := |spreadPercent|
    if absSpread < config.minSpreadThreshold then none
    else if absSpread > config.maxSpreadThreshold then none
    else
      let direction :=
        if spreadPercent > 0 then SwapDirection.ONE_FOR_ZERO
        else SwapDirection.ZERO_FOR_ONE
      let sourceWeight : ℚ :=
        match config.sourceWeights ref.source with
        | none => 1
        | some w => if w = 0 then 1 else w
      let confidence := min
        (absSpread / (config.minSpreadThreshold * 5) * ref.confidence * sourceWeight) 1
      some { spreadPercent := absSpread, direction := direction,
             referencePrice := ref.price,
             estimatedProfit := toFixed6 (absSpread / 100),
             source := ref.source,
             confidence := max confidence (1 / 10) }

/-- `ArbitrageAgent.detectOpportunities`: no opportunities on a non-positive
pool price, otherwise collect the surviving reference prices. -/
def detectOpportunities (currentPrice : ℚ) (referencePrices : List ReferencePrice)
    (config : ArbitrageConfig) : List ArbitrageOpportunity :=
  if currentPrice ≤ 0 then []
  else referencePrices.filterMap (mkOpportunity currentPrice config)

/-- `ArbitrageAgent.selectBestOpportunity`: an element maximising
`spreadPercent * confidence` (the source sorts descending by that key and
takes the head). -/
def selectBestOpportunity (first : ArbitrageOpportunity)
    (rest : List ArbitrageOpportunity) : ArbitrageOpportunity :=
  rest.foldl (fun best o =>
    if o.spreadPercent * o.confidence > best.spreadPercent * best.confidence
    then o else best) first

/-- `ArbitrageAgent.checkProfitability`: net profit after gas must reach the
configured minimum. -/
def checkProfitability (opportunity : ArbitrageOpportunity)
    (config : ArbitrageConfig) : Bool :=
  decide (opportunity.estimatedProfit - config.estimatedGasCost ≥ config.minNetProfit)

/-- `ArbitrageAgent.calculateArbitrageAmount`: scale with
`confidence * spread / 2`, capped at 1, between the configured bounds. -/
def calculateArbitrageAmount (opportunity : ArbitrageOpportunity)
    (tradingSettings : TradingSettings) : ℤ :=
  let range := tradingSettings.maxAmountIn - tradingSettings.minAmountIn
  let scaleFactor := min (opportunity.confidence * (opportunity.spreadPercent / 2)) 1
  tradingSettings.minAmountIn + (range * ⌊scaleFactor * 100⌋).tdiv 100

/-- `ArbitrageAgent.collectReferencePrices`: configured prices plus the
externally injected ones for this pool, dropping entries older than five
minutes. -/
def collectReferencePrices (configPrices externalPrices : List ReferencePrice)
    (now : ℤ) : List ReferencePrice :=
  (configPrices ++ externalPrices).filter (fun p => decide (now - p.timestamp < 300000))

/-- `ArbitrageAgent.shouldTrade`, for the pool of the given snapshot.
`externalPrices` is the entry of `externalReferencePrices` for this pool. -/
def arbitrageShouldTrade (lastTrade : ℤ) (externalPrices : List ReferencePrice)
    (marketData : MarketData) (strategyConfig : ArbitrageConfig)
    (tradingSettings : TradingSettings) (now : ℤ) : TradeDecision :=
  if ((now - lastTrade : ℤ) : ℚ) < strategyConfig.cooldownPeriod * 1000 then
    noTradeDecision now
  else if marketData.totalLiquidity < strategyConfig.minLiquidity then
    noTradeDecision now
  else
  let referencePrices := collectReferencePrices strategyConfig.referencePrices
    externalPrices now
  if referencePrices = [] then noTradeDecision now
  else
    match detectOpportunities marketData.currentPrice referencePrices strategyConfig with
    | [] => noTradeDecision now
    | o :: os =>
      let bestOpportunity := selectBestOpportunity o os
      if checkProfitability bestOpportunity strategyConfig then
        let baseAmount := calculateArbitrageAmount bestOpportunity tradingSettings
        let minOut := calculateMinAmountOut baseAmount marketData.currentPrice
          bestOpportunity.direction strategyConfig.maxSlippageBps
        { shouldTrade := true, direction := some bestOpportunity.direction,
          amountIn := some baseAmount, minAmountOut := some minOut,
          confidence := bestOpportunity.confidence, timestamp := now }
      else noTradeDecision now

/-- Configuration of the liquidity strategy (`LiquidityConfig`), with parsed
values: the liquidity bounds are the `BigInt(...)` of the configured strings
(`maxTotalLiquidity = 0` means unbounded). -/
structure LiquidityConfig where
  imbalanceThreshold : ℚ
  minTotalLiquidity : ℤ
  maxTotalLiquidity : ℤ
  volumeToLiquidityThreshold : ℚ
  cooldownPeriod : ℚ
  tradeIntoImbalance : Bool
  minConfidence : ℚ
  positionSizeFraction : ℚ
  detectLiquidityChanges : Bool
  liquidityChangeThreshold : ℚ
  deriving DecidableEq, Repr

/-- Which side of the pool holds less liquidity. -/
inductive ScarcerSide
  | token0
  | token1
  | balanced
  deriving DecidableEq, Repr

/-- The result of `LiquidityAgent.analyzeLiquidity` (`imbalanceRatioQ` and
`volumeToLiquidityRatioQ` are the source's `imbalanceRatio` and
`volumeToLiquidityRatio`). -/
structure LiquidityAnalysis where
  imbalanceRatioQ : ℚ
  isImbalanced : Bool
  scarcerSide : ScarcerSide
  volumeToLiquidityRatioQ : ℚ
  isHighVolume : Bool
  totalLiquidity : ℤ
  isViable : Bool
  deriving DecidableEq, Repr

/-- `LiquidityAgent.analyzeLiquidity`: viability bounds, imbalance ratio of
the larger over the smaller side at three decimals (1.0 and `balanced`
unless both sides are positive and unequal), and the volume-to-liquidity
ratio at four decimals. -/
def analyzeLiquidity (marketData : MarketData) (config : LiquidityConfig) :
    LiquidityAnalysis :=
  let liquidity0 := marketData.liquidity0
  let liquidity1 := marketData.liquidity1
  let totalLiquidity := marketData.totalLiquidity
  let isViable := decide (totalLiquidity ≥ config.minTotalLiquidity ∧
    (config.maxTotalLiquidity = 0 ∨ totalLiquidity ≤ config.maxTotalLiquidity))
  let rs : ℚ × ScarcerSide :=
    if 0 < liquidity0 ∧ 0 < liquidity1 then
      if liquidity0 > liquidity1 then
        ((((liquidity0 * 1000).tdiv liquidity1 : ℤ) : ℚ) / 1000, ScarcerSide.token1)
      else if liquidity1 > liquidity0 then
        ((((liquidity1 * 1000).tdiv liquidity0 : ℤ) : ℚ) / 1000, ScarcerSide.token0)
      else (1, ScarcerSide.balanced)
    else (1, ScarcerSide.balanced)
  let vlrQ : ℚ :=
    if 0 < totalLiquidity then
      (((marketData.volume1h * 10000).tdiv totalLiquidity : ℤ) : ℚ) / 10000
    else 0
  { imbalanceRatioQ := rs.1,
    isImbalanced := decide (rs.1 ≥ config.imbalanceThreshold),
    scarcerSide := rs.2,
    volumeToLiquidityRatioQ := vlrQ,
    isHighVolume := decide (vlrQ ≥ config.volumeToLiquidityThreshold),
    totalLiquidity := totalLiquidity,
    isViable := isViable }

/-- `LiquidityAgent.detectLiquidityChange`: no signal without a stored
previous value or on a zero previous value; otherwise compare the absolute
percentage change (two decimals) to the threshold. -/
def detectLiquidityChange (previousLiquidity : Option ℤ) (currentLiquidity : ℤ)
    (thresholdPercent : ℚ) : Bool :=
  match previousLiquidity with
  | none => false
  | some previous =>
    if previous = 0 then false
    else decide
      (|((((currentLiquidity - previous) * 10000).tdiv previous : ℤ) : ℚ) / 100| ≥
        thresholdPercent)

/-- `LiquidityAgent.calculateLiquidityAmount`: a position-size fraction of
total liquidity, scaled by confidence, then clamped to the configured
bounds (sequentially, as in the source). -/
def calculateLiquidityAmount (analysis : LiquidityAnalysis) (confidence : ℚ)
    (config : TradingSettings) (strategyConfig : LiquidityConfig) : ℤ :=
  let liquidityBasedAmount :=
    (analysis.totalLiquidity * ⌊strategyConfig.positionSizeFraction * 10000⌋).tdiv 10000
  let confidenceScaled := (liquidityBasedAmount * ⌊confidence * 100⌋).tdiv 100
  let clampedLow :=
    if confidenceScaled < config.minAmountIn then config.minAmountIn
    else confidenceScaled
  if clampedLow > config.maxAmountIn then config.maxAmountIn else clampedLow

/-- Accumulator of the signal block of `LiquidityAgent.shouldTrade`: the
mutable `shouldTrade`, `direction` and `confidence` locals. -/
structure LiquiditySignal where
  st : Bool
  direction : Option SwapDirection
  confidence : ℚ
  deriving DecidableEq, Repr

/-- The three-signal block of `LiquidityAgent.shouldTrade` (signal 1:
imbalance, signal 2: high volume relative to liquidity, signal 3: sudden
liquidity change), accumulating the mutable locals in order. -/
def liquiditySignals (analysis : LiquidityAnalysis)
    (liquidityChangeSignal : Bool) (strategyConfig : LiquidityConfig) :
    LiquiditySignal :=
  let s1 : LiquiditySignal :=
    if analysis.isImbalanced then
      let direction :=
        if strategyConfig.tradeIntoImbalance then
          (if analysis.scarcerSide = ScarcerSide.token0 then
            SwapDirection.ONE_FOR_ZERO else SwapDirection.ZERO_FOR_ONE)
        else
          (if analysis.scarcerSide = ScarcerSide.token0 then
            SwapDirection.ZERO_FOR_ONE else SwapDirection.ONE_FOR_ZERO)
      let imbalanceSeverity := min
        ((analysis.imbalanceRatioQ - strategyConfig.imbalanceThreshold) /
          strategyConfig.imbalanceThreshold) 1
      { st := true, direction := some direction,
        confidence := 3 / 10 + imbalanceSeverity * (2 / 5) }
    else { st := false, direction := none, confidence := 0 }
  let s2 : LiquiditySignal :=
    if analysis.isHighVolume then
      if s1.st then { s1 with confidence := min (s1.confidence + 3 / 20) 1 }
      else { st := true,
             direction := some (s1.direction.getD SwapDirection.ZERO_FOR_ONE),
             confidence := 1 / 4 }
    else s1
  if liquidityChangeSignal then
    if s2.st then { s2 with confidence := min (s2.confidence + 1 / 10) 1 }
    else { st := true,
           direction := some (s2.direction.getD SwapDirection.ZERO_FOR_ONE),
           confidence := 1 / 5 }
  else s2

/-- `LiquidityAgent.shouldTrade`, for the pool of the given snapshot.
`previousLiquidity` is the entry of the `previousLiquidity` map for the pool
(which the method re-stores on every non-cooldown call, not modelled here
because only the current decision is at stake). -/
def liquidityShouldTrade (lastTrade : ℤ) (previousLiquidity : Option ℤ)
    (marketData : MarketData) (strategyConfig : LiquidityConfig)
    (tradingSettings : TradingSettings) (now : ℤ) : TradeDecision :=
  if ((now - lastTrade : ℤ) : ℚ) < strategyConfig.cooldownPeriod * 1000 then
    noTradeDecision now
  else
  let analysis := analyzeLiquidity marketData strategyConfig
  if analysis.isViable = false then noTradeDecision now
  else
  let liquidityChangeSignal := strategyConfig.detectLiquidityChanges &&
    detectLiquidityChange previousLiquidity marketData.totalLiquidity
      strategyConfig.liquidityChangeThreshold
  let s3 := liquiditySignals analysis liquidityChangeSignal strategyConfig
  match s3.direction with
  | none => noTradeDecision now
  | some direction =>
    if s3.st = false then noTradeDecision now
    else if s3.confidence < strategyConfig.minConfidence then noTradeDecision now
    else
      let amountIn := calculateLiquidityAmount analysis s3.confidence
        tradingSettings strategyConfig
      let minOut := calculateMinAmountOut amountIn marketData.currentPrice
        direction tradingSettings.defaultSlippageBps
      { shouldTrade := true, direction := some direction,
        amountIn := some amountIn, minAmountOut := some minOut,
        confidence := s3.confidence, timestamp := now }

/-- Configuration of the mean-reversion strategy (`MeanReversionConfig`);
`volumeConfirmationRatioQ` is the source's `volumeConfirmationRatio`. -/
structure MeanReversionConfig where
  emaPeriod : ℚ
  moderateDeviationThreshold : ℚ
  strongDeviationThreshold : ℚ
  extremeDeviationThreshold : ℚ
  maxDeviationThreshold : ℚ
  cooldownPeriod : ℚ
  minConfidence : ℚ
  requireVolumeConfirmation : Bool
  volumeConfirmationRatioQ : ℚ
  minDataPoints : ℕ
  emaSmoothingFactor : Option ℚ
  deriving DecidableEq, Repr

/-- Per-pool state of `MeanReversionAgent`: the entries of `priceHistory`
(price, timestamp), `emaValues`, `emaSquaredValues` and
`lastTradeTimestamp` for one pool (`lastTrade` 0 when absent). -/
structure MeanRevPoolState where
  priceHistory : List (ℚ × ℤ)
  ema : Option ℚ
  emaSquared : Option ℚ
  lastTrade : ℤ
  deriving DecidableEq, Repr

/-- `MeanReversionAgent.updatePriceHistory`: append the new entry and keep
the last 1000 data points. -/
def updatePriceHistory (history : List (ℚ × ℤ)) (price : ℚ) (timestamp : ℤ) :
    List (ℚ × ℤ) :=
  let pushed := history ++ [(price, timestamp)]
  if pushed.length > 1000 then pushed.drop (pushed.length - 1000) else pushed

/-- The effective EMA smoothing factor,
`config.emaSmoothingFactor || 2 / (config.emaPeriod + 1)` (a configured 0 is
falsy and also selects the default). -/
def emaSmoothing (config : MeanReversionConfig) : ℚ :=
  match config.emaSmoothingFactor with
  | none => 2 / (config.emaPeriod + 1)
  | some f => if f = 0 then 2 / (config.emaPeriod + 1) else f

/-- `MeanReversionAgent.updateEMA`: the first price initialises both EMAs;
afterwards both are updated with the smoothing factor (an absent EMA of
squares counts as 0, as in the source's `|| 0`). -/
def updateEMA (previousEMA previousEMASquared : Option ℚ) (currentPrice : ℚ)
    (config : MeanReversionConfig) : ℚ × ℚ :=
  let smoothingFactor := emaSmoothing config
  match previousEMA with
  | none => (currentPrice, currentPrice * currentPrice)
  | some prev =>
    (currentPrice * smoothingFactor + prev * (1 - smoothingFactor),
     currentPrice * currentPrice * smoothingFactor +
       (previousEMASquared.getD 0) * (1 - smoothingFactor))

/-- The statistics various mean-reversion steps consume (the non-constant
fields of the source's `PriceStatistics`). -/
structure PriceStatistics where
  ema : ℚ
  standardDeviation : ℚ
  zScore : ℚ
  deviationPercent : ℚ
  dataPoints : ℕ
  deriving DecidableEq, Repr

/-- `MeanReversionAgent.calculateStatistics` after the EMAs exist: variance
as `E[X²] − E[X]²` floored at 0, standard deviation by square root
(`Rat.sqrt`, exact on rational squares), and a zero z-score when the
standard deviation vanishes. -/
def calculateStatistics (ema emaSquared : ℚ) (historyLength : ℕ)
    (currentPrice : ℚ) : PriceStatistics :=
  let variance := max (emaSquared - ema * ema) 0
  let standardDeviation := Rat.sqrt variance
  if standardDeviation = 0 then
    { ema := ema, standardDeviation := 0, zScore := 0, deviationPercent := 0,
      dataPoints := historyLength }
  else
    { ema := ema, standardDeviation := standardDeviation,
      zScore := (currentPrice - ema) / standardDeviation,
      deviationPercent := (currentPrice - ema) / ema * 100,
      dataPoints := historyLength }

/-- `MeanReversionAgent.checkVolumeConfirmation`: volume-to-liquidity ratio
at four decimals against the configured threshold, false on zero
liquidity. -/
def checkVolumeConfirmation (marketData : MarketData)
    (config : MeanReversionConfig) : Bool :=
  if marketData.totalLiquidity = 0 then false
  else decide
    (((((marketData.volume1h * 10000).tdiv marketData.totalLiquidity : ℤ) : ℚ) / 10000) ≥
      config.volumeConfirmationRatioQ)

/-- `MeanReversionAgent.calculateReversionAmount`: scale linearly with
confidence between the configured bounds. -/
def calculateReversionAmount (confidence : ℚ)
    (tradingSettings : TradingSettings) : ℤ :=
  let range := tradingSettings.maxAmountIn - tradingSettings.minAmountIn
  tradingSettings.minAmountIn + (range * ⌊confidence * 100⌋).tdiv 100

/-- `MeanReversionAgent.shouldTrade`, for the pool of the given snapshot,
returning the decision together with the updated per-pool state.  The
signal zones are modelled by the base confidence they select (`none` for
the source's `signalZone === 'none'`). -/
def meanRevShouldTrade (s : MeanRevPoolState) (marketData : MarketData)
    (strategyConfig : MeanReversionConfig) (tradingSettings : TradingSettings)
    (now : ℤ) : TradeDecision × MeanRevPoolState :=
  if ((now - s.lastTrade : ℤ) : ℚ) < strategyConfig.cooldownPeriod * 1000 then
    (noTradeDecision now, s)
  else
  let currentPrice := marketData.currentPrice
  if currentPrice ≤ 0 then (noTradeDecision now, s)
  else
  let history := updatePriceHistory s.priceHistory currentPrice now
  let em := updateEMA s.ema s.emaSquared currentPrice strategyConfig
  let s1 : MeanRevPoolState :=
    { priceHistory := history, ema := some em.1, emaSquared := some em.2,
      lastTrade := s.lastTrade }
  let stats := calculateStatistics em.1 em.2 history.length currentPrice
  if stats.dataPoints < strategyConfig.minDataPoints then (noTradeDecision now, s1)
  else if |stats.zScore| > strategyConfig.maxDeviationThreshold then
    (noTradeDecision now, s1)
  else
  let absZScore := |stats.zScore|
  let signalZone : Option ℚ :=
    if absZScore ≥ strategyConfig.extremeDeviationThreshold then some (9 / 10)
    else if absZScore ≥ strategyConfig.strongDeviationThreshold then some (13 / 20)
    else if absZScore ≥ strategyConfig.moderateDeviationThreshold then some (2 / 5)
    else none
  match signalZone with
  | none => (noTradeDecision now, s1)
  | some baseConfidence =>
    let direction :=
      if stats.zScore > 0 then SwapDirection.ZERO_FOR_ONE
      else SwapDirection.ONE_FOR_ZERO
    let confidence :=
      if strategyConfig.requireVolumeConfirmation then
        if checkVolumeConfirmation marketData strategyConfig then
          min (baseConfidence * (6 / 5)) 1
        else baseConfidence * (7 / 10)
      else baseConfidence
    if confidence < strategyConfig.minConfidence then (noTradeDecision now, s1)
    else
      let amountIn := calculateReversionAmount confidence tradingSettings
      let minOut := calculateMinAmountOut amountIn marketData.currentPrice
        direction tradingSettings.defaultSlippageBps
      ({ shouldTrade := true, direction := some direction,
         amountIn := some amountIn, minAmountOut := some minOut,
         confidence := confidence, timestamp := now },
       { s1 with lastTrade := now })

/-- The z-score `MeanReversionAgent.shouldTrade` computes for a snapshot
from a given per-pool state (composition of the update and statistics
steps above, for use in theorem statements). -/
def meanRevZScore (s : MeanRevPoolState) (marketData : MarketData)
    (strategyConfig : MeanReversionConfig) (now : ℤ) : ℚ :=
  (calculateStatistics
    (updateEMA s.ema s.emaSquared marketData.currentPrice strategyConfig).1
    (updateEMA s.ema s.emaSquared marketData.currentPrice strategyConfig).2
    (updatePriceHistory s.priceHistory marketData.currentPrice now).length
    marketData.currentPrice).zScore

/-- Conflict-resolution strategies of the batch coordinator. -/
inductive ConflictStrategy
  | median
  | mean
  | minimum
  | maximum
  deriving DecidableEq, Repr

/-- Insert a value into an ascending list, keeping it sorted. -/
def insertSorted (x : ℤ) : List ℤ → List ℤ
  | [] => [x]
  | y :: ys => if x ≤ y then x :: y :: ys else y :: insertSorted x ys

/-- Ascending insertion sort. -/
def sortAsc (l : List ℤ) : List ℤ :=
  l.foldr insertSorted []

/-- Modelled from the spec: the `BatchCoordinator` implementation is not
under `src/` (only its test suite is), so the slippage aggregation of
`resolveBatchParameters` is modelled from spec §4.3: `median` sorts
ascending and returns the lower-middle element for even counts (the
(n/2)-th element in 1-based order) and the middle element for odd counts;
`mean` truncates the average to an integer; `minimum`/`maximum` take the
extremes.  An empty value list resolves to 0. -/
def resolveSlippage (strategy : ConflictStrategy) (values : List ℤ) : ℤ :=
  match strategy with
  | ConflictStrategy.median =>
    let sorted := sortAsc values
    if values.length % 2 = 0 then sorted.getD (values.length / 2 - 1) 0
    else sorted.getD (values.length / 2) 0
  | ConflictStrategy.mean =>
    if values.length = 0 then 0 else values.sum.tdiv (values.length : ℤ)
  | ConflictStrategy.minimum => (sortAsc values).getD 0 0
  | ConflictStrategy.maximum => (sortAsc values).getD (values.length - 1) 0

/-- Modelled from the spec: `slippage_bps` of the resolved batch parameters
aggregates the non-null `preferredSlippageBps` of the ready-set signals by
the configured strategy. -/
def resolveBatchSlippage (strategy : ConflictStrategy)
    (preferredSlippageBps : List (Option ℤ)) : ℤ :=
  resolveSlippage strategy (preferredSlippageBps.filterMap id)

/-! Helper lemmas shared by several claims. -/

theorem scale_floor_bounds (mn mx : ℤ) (h : mn ≤ mx) (c : ℚ) (h0 : 0 ≤ c)
    (h1 : c ≤ 1) :
    mn ≤ mn + ((mx - mn) * ⌊c * 100⌋).tdiv 100 ∧
      mn + ((mx - mn) * ⌊c * 100⌋).tdiv 100 ≤ mx := by
  have hk0 : (0 : ℤ) ≤ ⌊c * 100⌋ := by
    apply Int.floor_nonneg.mpr
    positivity
  have hk1 : (⌊c * 100⌋ : ℤ) ≤ 100 := by
    have h2 : c * 100 ≤ (100 : ℚ) := by nlinarith
    calc (⌊c * 100⌋ : ℤ) ≤ ⌊(100 : ℚ)⌋ := Int.floor_le_floor h2
    _ = 100 := by norm_num
  have hr : (0 : ℤ) ≤ mx - mn := sub_nonneg.mpr h
  have hnum : (0 : ℤ) ≤ (mx - mn) * ⌊c * 100⌋ := mul_nonneg hr hk0
  rw [Int.tdiv_eq_ediv hnum (by norm_num)]
  constructor
  · have h5 := Int.ediv_nonneg hnum (by norm_num : (0 : ℤ) ≤ 100)
    linarith
  · have h2 : (mx - mn) * ⌊c * 100⌋ ≤ (mx - mn) * 100 :=
      mul_le_mul_of_nonneg_left hk1 hr
    have h3 : (mx - mn) * ⌊c * 100⌋ / 100 ≤ (mx - mn) * 100 / 100 :=
      Int.ediv_le_ediv (by norm_num) h2
    have h4 : (mx - mn) * 100 / 100 = mx - mn := Int.mul_ediv_cancel _ (by norm_num)
    linarith

theorem calculateMomentumConfidence_mem (m1 m24 : ℚ) (cfg : MomentumConfig) :
    1 / 10 ≤ calculateMomentumConfidence m1 m24 cfg ∧
      calculateMomentumConfidence m1 m24 cfg ≤ 1 := by
  unfold calculateMomentumConfidence
  exact ⟨le_max_left _ _, max_le (by norm_num) (min_le_right _ _)⟩

theorem trend_adjusted_conf_mem (c : ℚ) (hlo : 1 / 10 ≤ c) (hhi : c ≤ 1)
    (b : Bool) :
    7 / 100 ≤ (if b then min (c * (6 / 5)) 1 else c * (7 / 10)) ∧
      (if b then min (c * (6 / 5)) 1 else c * (7 / 10)) ≤ 1 := by
  cases b with
  | true =>
    refine ⟨le_min (by nlinarith) (by norm_num), by simp [min_le_right]⟩
  | false =>
    simp only [Bool.false_eq_true, if_false]
    constructor
    · nlinarith
    · nlinarith

theorem cap_add_mem (x b : ℚ) (h0 : 0 ≤ x) (_h1 : x ≤ 1) (hb : 0 ≤ b) :
    0 ≤ min (x + b) 1 ∧ min (x + b) 1 ≤ 1 :=
  ⟨le_min (by linarith) (by norm_num), min_le_right _ _⟩

theorem analyzeLiquidity_imbalanced_iff (marketData : MarketData)
    (config : LiquidityConfig) :
    (analyzeLiquidity marketData config).isImbalanced = true ↔
      config.imbalanceThreshold ≤ (analyzeLiquidity marketData config).imbalanceRatioQ := by
  simp [analyzeLiquidity]

/-- The signal accumulator of `liquiditySignals`. -/
def liquidityS3 (previousLiquidity : Option ℤ) (marketData : MarketData)
    (strategyConfig : LiquidityConfig) : LiquiditySignal :=
  liquiditySignals (analyzeLiquidity marketData strategyConfig)
    (strategyConfig.detectLiquidityChanges &&
      detectLiquidityChange previousLiquidity marketData.totalLiquidity
        strategyConfig.liquidityChangeThreshold)
    strategyConfig

theorem liquiditySignals_confidence_mem (a : LiquidityAnalysis) (ch : Bool)
    (cfg : LiquidityConfig) (hthr : 0 < cfg.imbalanceThreshold)
    (himb : a.isImbalanced = true → cfg.imbalanceThreshold ≤ a.imbalanceRatioQ) :
    0 ≤ (liquiditySignals a ch cfg).confidence ∧
      (liquiditySignals a ch cfg).confidence ≤ 1 := by
  have hbase : a.isImbalanced = true →
      0 ≤ 3 / 10 + min ((a.imbalanceRatioQ - cfg.imbalanceThreshold) /
        cfg.imbalanceThreshold) 1 * (2 / 5) ∧
      3 / 10 + min ((a.imbalanceRatioQ - cfg.imbalanceThreshold) /
        cfg.imbalanceThreshold) 1 * (2 / 5) ≤ 1 := by
    intro h
    have hr := himb h
    have hs0 : 0 ≤ min ((a.imbalanceRatioQ - cfg.imbalanceThreshold) /
        cfg.imbalanceThreshold) 1 :=
      le_min (div_nonneg (by linarith) hthr.le) (by norm_num)
    have hs1 : min ((a.imbalanceRatioQ - cfg.imbalanceThreshold) /
        cfg.imbalanceThreshold) 1 ≤ 1 := min_le_right _ _
    constructor <;> nlinarith
  cases himbb : a.isImbalanced <;> cases hvol : a.isHighVolume <;> cases hch : ch <;>
    simp only [liquiditySignals, himbb, hvol, hch, if_true, if_false,
      Bool.false_eq_true, Bool.true_eq_false, ite_true, ite_false]
  · exact ⟨le_refl 0, by norm_num⟩
  · exact ⟨by norm_num, by norm_num⟩
  · exact ⟨by norm_num, by norm_num⟩
  · exact cap_add_mem (1 / 4) (1 / 10) (by norm_num) (by norm_num) (by norm_num)
  · exact hbase himbb
  · exact cap_add_mem _ (1 / 10) (hbase himbb).1 (hbase himbb).2 (by norm_num)
  · exact cap_add_mem _ (3 / 20) (hbase himbb).1 (hbase himbb).2 (by norm_num)
  · exact cap_add_mem _ (1 / 10)
      (cap_add_mem _ (3 / 20) (hbase himbb).1 (hbase himbb).2 (by norm_num)).1
      (cap_add_mem _ (3 / 20) (hbase himbb).1 (hbase himbb).2 (by norm_num)).2
      (by norm_num)

theorem liquiditySignals_direction_of_imbalanced (a : LiquidityAnalysis)
    (ch : Bool) (cfg : LiquidityConfig) (himb : a.isImbalanced = true) :
    (liquiditySignals a ch cfg).direction = some
      (if cfg.tradeIntoImbalance then
        (if a.scarcerSide = ScarcerSide.token0 then SwapDirection.ONE_FOR_ZERO
         else SwapDirection.ZERO_FOR_ONE)
       else
        (if a.scarcerSide = ScarcerSide.token0 then SwapDirection.ZERO_FOR_ONE
         else SwapDirection.ONE_FOR_ZERO)) := by
  cases hvol : a.isHighVolume <;> cases hch : ch <;>
    simp only [liquiditySignals, himb, hvol, hch, if_true, if_false,
      Bool.false_eq_true, Bool.true_eq_false, ite_true, ite_false]

theorem liquidityShouldTrade_trade_shape (lastTrade : ℤ)
    (previousLiquidity : Option ℤ) (marketData : MarketData)
    (strategyConfig : LiquidityConfig) (tradingSettings : TradingSettings)
    (now : ℤ)
    (hdec : (liquidityShouldTrade lastTrade previousLiquidity marketData
      strategyConfig tradingSettings now).shouldTrade = true) :
    (liquidityShouldTrade lastTrade previousLiquidity marketData strategyConfig
        tradingSettings now).confidence =
      (liquidityS3 previousLiquidity marketData strategyConfig).confidence ∧
    (liquidityShouldTrade lastTrade previousLiquidity marketData strategyConfig
        tradingSettings now).direction =
      (liquidityS3 previousLiquidity marketData strategyConfig).direction ∧
    (liquidityShouldTrade lastTrade previousLiquidity marketData strategyConfig
        tradingSettings now).amountIn = some (calculateLiquidityAmount
      (analyzeLiquidity marketData strategyConfig)
      (liquidityS3 previousLiquidity marketData strategyConfig).confidence
      tradingSettings strategyConfig) := by
  unfold liquidityS3
  by_cases h1 : (now : ℚ) - (lastTrade : ℚ) < strategyConfig.cooldownPeriod * 1000
  · simp [liquidityShouldTrade, h1, noTradeDecision] at hdec
  by_cases h2 : (analyzeLiquidity marketData strategyConfig).isViable = false
  · simp [liquidityShouldTrade, h1, h2, noTradeDecision] at hdec
  cases hd : (liquiditySignals (analyzeLiquidity marketData strategyConfig)
      (strategyConfig.detectLiquidityChanges &&
        detectLiquidityChange previousLiquidity marketData.totalLiquidity
          strategyConfig.liquidityChangeThreshold)
      strategyConfig).direction with
  | none =>
    simp [liquidityShouldTrade, h1, h2, hd, noTradeDecision] at hdec
  | some d =>
    by_cases h3 : (liquiditySignals (analyzeLiquidity marketData strategyConfig)
        (strategyConfig.detectLiquidityChanges &&
          detectLiquidityChange previousLiquidity marketData.totalLiquidity
            strategyConfig.liquidityChangeThreshold)
        strategyConfig).st = false
    · simp [liquidityShouldTrade, h1, h2, hd, h3, noTradeDecision] at hdec
    by_cases h4 : (liquiditySignals (analyzeLiquidity marketData strategyConfig)
        (strategyConfig.detectLiquidityChanges &&
          detectLiquidityChange previousLiquidity marketData.totalLiquidity
            strategyConfig.liquidityChangeThreshold)
        strategyConfig).confidence < strategyConfig.minConfidence
    · simp [liquidityShouldTrade, h1, h2, hd, h3, h4, noTradeDecision] at hdec
    simp [liquidityShouldTrade, h1, h2, hd, h3, h4]

theorem selectBestOpportunity_mem (first : ArbitrageOpportunity)
    (rest : List ArbitrageOpportunity) :
    selectBestOpportunity first rest ∈ first :: rest := by
  induction rest generalizing first with
  | nil => simp [selectBestOpportunity]
  | cons x xs ih =>
    have h := ih (if x.spreadPercent * x.confidence >
        first.spreadPercent * first.confidence then x else first)
    simp only [selectBestOpportunity, List.foldl_cons] at h ⊢
    rcases List.mem_cons.mp h with h1 | h1
    · rw [h1]
      split_ifs
      · exact List.mem_cons_of_mem _ (List.mem_cons_self _ _)
      · exact List.mem_cons_self _ _
    · exact List.mem_cons_of_mem _ (List.mem_cons_of_mem _ h1)

theorem mkOpportunity_confidence_mem (currentPrice : ℚ)
    (config : ArbitrageConfig) (ref : ReferencePrice)
    (op : ArbitrageOpportunity)
    (h : mkOpportunity currentPrice config ref = some op) :
    1 / 10 ≤ op.confidence ∧ op.confidence ≤ 1 ∧ 0 ≤ op.spreadPercent := by
  simp only [mkOpportunity] at h
  split_ifs at h
  all_goals
    injection h with h2
    subst h2
    exact ⟨le_max_right _ _, max_le (min_le_right _ _) (by norm_num), abs_nonneg _⟩

theorem detectOpportunities_confidence_mem (currentPrice : ℚ)
    (referencePrices : List ReferencePrice) (config : ArbitrageConfig)
    (op : ArbitrageOpportunity)
    (h : op ∈ detectOpportunities currentPrice referencePrices config) :
    1 / 10 ≤ op.confidence ∧ op.confidence ≤ 1 ∧ 0 ≤ op.spreadPercent := by
  unfold detectOpportunities at h
  split_ifs at h
  · simp at h
  · obtain ⟨ref, _, h2⟩ := List.mem_filterMap.mp h
    exact mkOpportunity_confidence_mem currentPrice config ref op h2

theorem arbitrageShouldTrade_trade_shape (lastTrade : ℤ)
    (externalPrices : List ReferencePrice) (marketData : MarketData)
    (strategyConfig : ArbitrageConfig) (tradingSettings : TradingSettings)
    (now : ℤ)
    (hdec : (arbitrageShouldTrade lastTrade externalPrices marketData
      strategyConfig tradingSettings now).shouldTrade = true) :
    ∃ op, op ∈ detectOpportunities marketData.currentPrice
        (collectReferencePrices strategyConfig.referencePrices externalPrices now)
        strategyConfig ∧
      (arbitrageShouldTrade lastTrade externalPrices marketData strategyConfig
          tradingSettings now).confidence = op.confidence ∧
      (arbitrageShouldTrade lastTrade externalPrices marketData strategyConfig
          tradingSettings now).amountIn =
        some (calculateArbitrageAmount op tradingSettings) := by
  by_cases h1 : (now : ℚ) - (lastTrade : ℚ) < strategyConfig.cooldownPeriod * 1000
  · simp [arbitrageShouldTrade, h1, noTradeDecision] at hdec
  by_cases h2 : marketData.totalLiquidity < strategyConfig.minLiquidity
  · simp [arbitrageShouldTrade, h1, h2, noTradeDecision] at hdec
  by_cases h3 : collectReferencePrices strategyConfig.referencePrices
      externalPrices now = []
  · simp [arbitrageShouldTrade, h1, h2, h3, noTradeDecision] at hdec
  cases hops : detectOpportunities marketData.currentPrice
      (collectReferencePrices strategyConfig.referencePrices externalPrices now)
      strategyConfig with
  | nil => simp [arbitrageShouldTrade, h1, h2, h3, hops, noTradeDecision] at hdec
  | cons o os =>
    by_cases h4 : checkProfitability (selectBestOpportunity o os) strategyConfig = true
    · refine ⟨selectBestOpportunity o os, ?_, ?_, ?_⟩
      · exact selectBestOpportunity_mem o os
      · simp [arbitrageShouldTrade, h1, h2, h3, hops, h4]
      · simp [arbitrageShouldTrade, h1, h2, h3, hops, h4]
    · simp [arbitrageShouldTrade, h1, h2, h3, hops, h4, noTradeDecision] at hdec

theorem momentumShouldTrade_trade_shape (lastTrade : ℤ)
    (marketData : MarketData) (strategyConfig : MomentumConfig)
    (tradingSettings : TradingSettings) (now : ℤ)
    (hdec : (momentumShouldTrade lastTrade marketData strategyConfig
      tradingSettings now).shouldTrade = true) :
    (momentumShouldTrade lastTrade marketData strategyConfig tradingSettings
        now).confidence =
      (if confirmTrend marketData.recentSwaps
          (decide (marketData.priceChange1h * strategyConfig.shortTermWeight +
            marketData.priceChange24h * strategyConfig.longTermWeight > 0))
          strategyConfig.trendConfirmationSwaps then
        min (calculateMomentumConfidence marketData.priceChange1h
          marketData.priceChange24h strategyConfig * (6 / 5)) 1
       else calculateMomentumConfidence marketData.priceChange1h
        marketData.priceChange24h strategyConfig * (7 / 10)) ∧
    (momentumShouldTrade lastTrade marketData strategyConfig tradingSettings
        now).amountIn =
      some (calculateBaseAmount
        ((momentumShouldTrade lastTrade marketData strategyConfig tradingSettings
          now).confidence) tradingSettings) := by
  by_cases h1 : (now : ℚ) - (lastTrade : ℚ) < strategyConfig.cooldownPeriod * 1000
  · simp [momentumShouldTrade, h1, noTradeDecision] at hdec
  by_cases h2 : |marketData.priceChange1h| > strategyConfig.maxVolatilityThreshold ∨
      |marketData.priceChange24h| > strategyConfig.maxVolatilityThreshold
  · simp [momentumShouldTrade, h1, h2, noTradeDecision] at hdec
  by_cases h3 : |marketData.priceChange1h * strategyConfig.shortTermWeight +
      marketData.priceChange24h * strategyConfig.longTermWeight| <
      strategyConfig.momentumThreshold1h * strategyConfig.shortTermWeight +
      strategyConfig.momentumThreshold24h * strategyConfig.longTermWeight
  · simp [momentumShouldTrade, h1, h2, h3, noTradeDecision] at hdec
  by_cases h4 : strategyConfig.requireVolumeConfirmation = true ∧
      marketData.volume1h < strategyConfig.minVolumeThreshold
  · simp [momentumShouldTrade, h1, h2, h3, h4, noTradeDecision] at hdec
  constructor
  · simp [momentumShouldTrade, h1, h2, h3, h4]
  · simp [momentumShouldTrade, h1, h2, h3, h4]

theorem meanRevShouldTrade_trade_shape (s : MeanRevPoolState)
    (md : MarketData) (scfg : MeanReversionConfig) (tcfg : TradingSettings)
    (now : ℤ)
    (hdec : (meanRevShouldTrade s md scfg tcfg now).1.shouldTrade = true) :
    ∃ b : ℚ, (b = 9 / 10 ∨ b = 13 / 20 ∨ b = 2 / 5) ∧
      (meanRevShouldTrade s md scfg tcfg now).1.confidence =
        (if scfg.requireVolumeConfirmation then
          (if checkVolumeConfirmation md scfg then min (b * (6 / 5)) 1
           else b * (7 / 10))
         else b) ∧
      (meanRevShouldTrade s md scfg tcfg now).1.amountIn =
        some (calculateReversionAmount
          ((meanRevShouldTrade s md scfg tcfg now).1.confidence) tcfg) := by
  by_cases h1 : (now : ℚ) - (s.lastTrade : ℚ) < scfg.cooldownPeriod * 1000
  · simp [meanRevShouldTrade, h1, noTradeDecision] at hdec
  by_cases h2 : md.currentPrice ≤ 0
  · simp [meanRevShouldTrade, h1, h2, noTradeDecision] at hdec
  by_cases h3 : (calculateStatistics
      (updateEMA s.ema s.emaSquared md.currentPrice scfg).1
      (updateEMA s.ema s.emaSquared md.currentPrice scfg).2
      (updatePriceHistory s.priceHistory md.currentPrice now).length
      md.currentPrice).dataPoints < scfg.minDataPoints
  · simp [meanRevShouldTrade, h1, h2, h3, noTradeDecision] at hdec
  by_cases h4 : scfg.maxDeviationThreshold < |(calculateStatistics
      (updateEMA s.ema s.emaSquared md.currentPrice scfg).1
      (updateEMA s.ema s.emaSquared md.currentPrice scfg).2
      (updatePriceHistory s.priceHistory md.currentPrice now).length
      md.currentPrice).zScore|
  · simp [meanRevShouldTrade, h1, h2, h3, h4, noTradeDecision] at hdec
  by_cases h5 : scfg.extremeDeviationThreshold ≤ |(calculateStatistics
      (updateEMA s.ema s.emaSquared md.currentPrice scfg).1
      (updateEMA s.ema s.emaSquared md.currentPrice scfg).2
      (updatePriceHistory s.priceHistory md.currentPrice now).length
      md.currentPrice).zScore|
  · refine ⟨9 / 10, Or.inl rfl, ?_⟩
    by_cases h8 : (if scfg.requireVolumeConfirmation = true then
        (if checkVolumeConfirmation md scfg = true then min ((9 : ℚ) / 10 * (6 / 5)) 1
         else (9 : ℚ) / 10 * (7 / 10))
       else (9 : ℚ) / 10) < scfg.minConfidence
    · simp [meanRevShouldTrade, h1, h2, h3, h4, h5, h8, noTradeDecision] at hdec
    · constructor
      · simp [meanRevShouldTrade, h1, h2, h3, h4, h5, h8]
      · simp [meanRevShouldTrade, h1, h2, h3, h4, h5, h8]
  by_cases h6 : scfg.strongDeviationThreshold ≤ |(calculateStatistics
      (updateEMA s.ema s.emaSquared md.currentPrice scfg).1
      (updateEMA s.ema s.emaSquared md.currentPrice scfg).2
      (updatePriceHistory s.priceHistory md.currentPrice now).length
      md.currentPrice).zScore|
  · refine ⟨13 / 20, Or.inr (Or.inl rfl), ?_⟩
    by_cases h8 : (if scfg.requireVolumeConfirmation = true then
        (if checkVolumeConfirmation md scfg = true then min ((13 : ℚ) / 20 * (6 / 5)) 1
         else (13 : ℚ) / 20 * (7 / 10))
       else (13 : ℚ) / 20) < scfg.minConfidence
    · simp [meanRevShouldTrade, h1, h2, h3, h4, h5, h6, h8, noTradeDecision] at hdec
    · constructor
      · simp [meanRevShouldTrade, h1, h2, h3, h4, h5, h6, h8]
      · simp [meanRevShouldTrade, h1, h2, h3, h4, h5, h6, h8]
  by_cases h7 : scfg.moderateDeviationThreshold ≤ |(calculateStatistics
      (updateEMA s.ema s.emaSquared md.currentPrice scfg).1
      (updateEMA s.ema s.emaSquared md.currentPrice scfg).2
      (updatePriceHistory s.priceHistory md.currentPrice now).length
      md.currentPrice).zScore|
  · refine ⟨2 / 5, Or.inr (Or.inr rfl), ?_⟩
    by_cases h8 : (if scfg.requireVolumeConfirmation = true then
        (if checkVolumeConfirmation md scfg = true then min ((2 : ℚ) / 5 * (6 / 5)) 1
         else (2 : ℚ) / 5 * (7 / 10))
       else (2 : ℚ) / 5) < scfg.minConfidence
    · simp [meanRevShouldTrade, h1, h2, h3, h4, h5, h6, h7, h8, noTradeDecision] at hdec
    · constructor
      · simp [meanRevShouldTrade, h1, h2, h3, h4, h5, h6, h7, h8]
      · simp [meanRevShouldTrade, h1, h2, h3, h4, h5, h6, h7, h8]
  simp [meanRevShouldTrade, h1, h2, h3, h4, h5, h6, h7, noTradeDecision] at hdec

theorem tdiv_nonneg_of_nonneg {a b : ℤ} (ha : 0 ≤ a) (hb : 0 ≤ b) :
    0 ≤ a.tdiv b := by
  rw [Int.tdiv_eq_ediv ha hb]
  exact Int.ediv_nonneg ha hb

theorem slippage_cut_le (e m : ℤ) (he : 0 ≤ e) (hm0 : 0 ≤ m)
    (hm1 : m ≤ 10000) : (e * m).tdiv 10000 ≤ e := by
  rw [Int.tdiv_eq_ediv (mul_nonneg he hm0) (by norm_num)]
  calc e * m / 10000 ≤ e * 10000 / 10000 :=
        Int.ediv_le_ediv (by norm_num) (mul_le_mul_of_nonneg_left hm1 he)
  _ = e := Int.mul_ediv_cancel _ (by norm_num)

/-- Specification-side definition (claim C2): the risk-free expected output
for a direction, `amount_in · P / 10^18` for ZERO_FOR_ONE and
`amount_in · 10^18 / P` for ONE_FOR_ZERO with `P = ⌊current_price · 10^18⌋`,
stated in the claim's own words for the refinement comparison. -/
def expectedOutSpec (amountIn : ℤ) (currentPrice : ℚ)
    (direction : SwapDirection) : ℤ :=
  let price : ℤ := ⌊currentPrice * (10 : ℚ) ^ 18⌋
  match direction with
  | SwapDirection.ZERO_FOR_ONE => (amountIn * price).tdiv WAD
  | SwapDirection.ONE_FOR_ZERO => (amountIn * WAD).tdiv price

/-- Claim C2, corrected.  For every non-negative amount, every slippage in
[0, 10000] and every non-negative price, `calculateMinAmountOut` never
exceeds the expected output of the declared direction, and a zero price
yields a zero minimum output.  (The claim's converse — that a zero minimum
output only arises at price zero — is refuted by
`minAmountOut_zero_iff_counterexample`.) -/
theorem minAmountOut_slippage_bound (amountIn : ℤ) (currentPrice : ℚ)
    (direction : SwapDirection) (slippageBps : ℤ)
    (ha : 0 ≤ amountIn) (hp : 0 ≤ currentPrice)
    (hs0 : 0 ≤ slippageBps) (hs1 : slippageBps ≤ 10000) :
    calculateMinAmountOut amountIn currentPrice direction slippageBps ≤
      expectedOutSpec amountIn currentPrice direction ∧
    (currentPrice = 0 →
      calculateMinAmountOut amountIn currentPrice direction slippageBps = 0) := by
  have hP : (0 : ℤ) ≤ ⌊currentPrice * (10 : ℚ) ^ 18⌋ :=
    Int.floor_nonneg.mpr (by positivity)
  constructor
  · unfold calculateMinAmountOut expectedOutSpec
    by_cases hple : (⌊currentPrice * (10 : ℚ) ^ 18⌋ : ℤ) ≤ 0
    · rw [if_pos hple]
      have hP0 : (⌊currentPrice * (10 : ℚ) ^ 18⌋ : ℤ) = 0 := le_antisymm hple hP
      cases direction <;> simp [hP0]
    · rw [if_neg hple]
      have hPpos : (0 : ℤ) < ⌊currentPrice * (10 : ℚ) ^ 18⌋ :=
        lt_of_not_ge (fun hc => hple (by linarith))
      cases direction
      · exact slippage_cut_le _ _
          (tdiv_nonneg_of_nonneg (mul_nonneg ha hPpos.le) (by norm_num [WAD]))
          (by linarith) (by linarith)
      · exact slippage_cut_le _ _
          (tdiv_nonneg_of_nonneg (mul_nonneg ha (by norm_num [WAD])) hPpos.le)
          (by linarith) (by linarith)
  · intro h0
    subst h0
    simp [calculateMinAmountOut]

/-- Witness for `minAmountOut_slippage_bound` at amount 3, price 1/2 and
slippage 100 bps. -/
theorem minAmountOut_slippage_bound_witness :
    calculateMinAmountOut 3 (1 / 2) SwapDirection.ZERO_FOR_ONE 100 ≤
      expectedOutSpec 3 (1 / 2) SwapDirection.ZERO_FOR_ONE ∧
    ((1 : ℚ) / 2 = 0 →
      calculateMinAmountOut 3 (1 / 2) SwapDirection.ZERO_FOR_ONE 100 = 0) :=
  minAmountOut_slippage_bound 3 (1 / 2) SwapDirection.ZERO_FOR_ONE 100
    (by norm_num) (by norm_num) (by norm_num) (by norm_num)

/-- Claim C2's counterexample: at amount 1, the positive price 1 and the
full 10000 bps slippage tolerance, `calculateMinAmountOut` returns 0 even
though the price is not 0, refuting `min_amount_out = 0 ↔ current_price = 0`
for positive prices. -/
theorem minAmountOut_zero_iff_counterexample :
    calculateMinAmountOut 1 1 SwapDirection.ZERO_FOR_ONE 10000 = 0 ∧
      ¬ ((1 : ℚ) = 0) := by
  constructor
  · with_unfolding_all decide
  · norm_num

/-- Claim C7 (spec-modelled): slippage aggregation of the resolved batch
parameters.  `median` over the non-null preferences {30, 50, 100} yields 50,
`mean` over {30, 70} truncates to 50, and for an even count the median is
the lower-middle element: {30, 50, 70, 100} yields 50 (the 2nd of 4 in
1-based ascending order).  A null preference is ignored. -/
theorem batch_slippage_resolution :
    resolveBatchSlippage ConflictStrategy.median
      [some 30, none, some 50, some 100] = 50 ∧
    resolveBatchSlippage ConflictStrategy.mean [some 30, some 70] = 50 ∧
    resolveBatchSlippage ConflictStrategy.median
      [some 30, some 50, some 70, some 100] = 50 := by
  refine ⟨rfl, rfl, rfl⟩

/-- Claim C8: immediately after `recordTrade` the cooldown is active (for a
positive window), it stays active for exactly `cooldownMs` milliseconds and
is inactive from then on, and cooldowns of other pools are untouched. -/
theorem cooldown_window (lastTradeTimestamp : String → ℤ) (poolId : String)
    (cooldownMs now : ℤ) :
    (0 < cooldownMs →
      isCooldownActive (recordTrade lastTradeTimestamp poolId now) poolId
        cooldownMs now = true) ∧
    (∀ t : ℤ, isCooldownActive (recordTrade lastTradeTimestamp poolId now)
        poolId cooldownMs (now + t) = true ↔ t < cooldownMs) ∧
    (∀ (q : String) (now2 : ℤ), q ≠ poolId →
      isCooldownActive (recordTrade lastTradeTimestamp poolId now) q
          cooldownMs now2 =
        isCooldownActive lastTradeTimestamp q cooldownMs now2) := by
  refine ⟨?_, ?_, ?_⟩
  · intro h
    simp [isCooldownActive, recordTrade, h]
  · intro t
    simp [isCooldownActive, recordTrade]
  · intro q now2 hq
    simp [isCooldownActive, recordTrade, Function.update_noteq hq]

/-- Witness for `cooldown_window` on a concrete map and pool. -/
theorem cooldown_window_witness :
    isCooldownActive (recordTrade (fun _ => 0) "pool-1" 1000) "pool-1" 60000
        1000 = true ∧
    (isCooldownActive (recordTrade (fun _ => 0) "pool-1" 1000) "pool-1" 60000
        (1000 + 70000) = true ↔ (70000 : ℤ) < 60000) ∧
    isCooldownActive (recordTrade (fun _ => 0) "pool-1" 1000) "pool-2" 60000
        1000 = isCooldownActive (fun _ => 0) "pool-2" 60000 1000 :=
  ⟨(cooldown_window (fun _ => 0) "pool-1" 60000 1000).1 (by norm_num),
   (cooldown_window (fun _ => 0) "pool-1" 60000 1000).2.1 70000,
   (cooldown_window (fun _ => 0) "pool-1" 60000 1000).2.2 "pool-2" 1000
     (by decide)⟩

/-- Claim C9: a mean-reversion call rejected by the cooldown or by a
non-positive price returns the no-trade decision and leaves the whole
per-pool state (price history, EMA, EMA of squares, last-trade timestamp)
unchanged. -/
theorem meanReversion_reject_frame (s : MeanRevPoolState) (md : MarketData)
    (scfg : MeanReversionConfig) (tcfg : TradingSettings) (now : ℤ)
    (h : ((now - s.lastTrade : ℤ) : ℚ) < scfg.cooldownPeriod * 1000 ∨
      md.currentPrice ≤ 0) :
    meanRevShouldTrade s md scfg tcfg now = (noTradeDecision now, s) := by
  by_cases h1 : ((now - s.lastTrade : ℤ) : ℚ) < scfg.cooldownPeriod * 1000
  · simp only [meanRevShouldTrade, if_pos h1]
  · rcases h with h | h
    · exact absurd h h1
    · simp only [meanRevShouldTrade, if_neg h1, if_pos h]

/-- Claim C10: a snapshot with a zero liquidity side is analysed as
balanced with ratio 1.0, so any threshold above 1 never flags it as
imbalanced. -/
theorem zero_side_liquidity_balanced (md : MarketData)
    (cfg : LiquidityConfig) (h : md.liquidity0 = 0 ∨ md.liquidity1 = 0) :
    (analyzeLiquidity md cfg).imbalanceRatioQ = 1 ∧
    (analyzeLiquidity md cfg).scarcerSide = ScarcerSide.balanced ∧
    (1 < cfg.imbalanceThreshold →
      (analyzeLiquidity md cfg).isImbalanced = false) := by
  have hcond : ¬ (0 < md.liquidity0 ∧ 0 < md.liquidity1) := by
    rcases h with h | h <;> simp [h]
  refine ⟨?_, ?_, ?_⟩
  · simp [analyzeLiquidity, hcond]
  · simp [analyzeLiquidity, hcond]
  · intro hthr
    simp [analyzeLiquidity, hcond]
    linarith

theorem analyzeLiquidity_scarcerSide_gt (md : MarketData)
    (cfg : LiquidityConfig) (h0 : 0 < md.liquidity0) (h1 : 0 < md.liquidity1)
    (hgt : md.liquidity0 > md.liquidity1) :
    (analyzeLiquidity md cfg).scarcerSide = ScarcerSide.token1 := by
  simp only [analyzeLiquidity]
  rw [if_pos ⟨h0, h1⟩, if_pos hgt]

theorem analyzeLiquidity_scarcerSide_lt (md : MarketData)
    (cfg : LiquidityConfig) (h0 : 0 < md.liquidity0) (h1 : 0 < md.liquidity1)
    (hlt : md.liquidity1 > md.liquidity0) :
    (analyzeLiquidity md cfg).scarcerSide = ScarcerSide.token0 := by
  simp only [analyzeLiquidity]
  rw [if_pos ⟨h0, h1⟩, if_neg (lt_asymm hlt), if_pos hlt]

/-- Trading settings shared by the concrete evaluations below. -/
def tradingSettingsW : TradingSettings :=
  { minAmountIn := 1, maxAmountIn := 100, defaultSlippageBps := 50 }

/-- An imbalanced snapshot with liquidity0 = 800 > liquidity1 = 200 (as in
the LiquidityAgent direction test). -/
def imbalancedMarketW : MarketData :=
  { poolId := "pool-1", currentPrice := 1, priceChange1h := 0,
    priceChange24h := 0, totalLiquidity := 1000, liquidity0 := 800,
    liquidity1 := 200, volume1h := 0, volume24h := 0, recentSwaps := [],
    timestamp := 0 }

/-- The default-like liquidity configuration used by the evaluations. -/
def liquidityConfigW : LiquidityConfig :=
  { imbalanceThreshold := 3 / 2, minTotalLiquidity := 1000,
    maxTotalLiquidity := 0, volumeToLiquidityThreshold := 1 / 10,
    cooldownPeriod := 600, tradeIntoImbalance := true, minConfidence := 3 / 10,
    positionSizeFraction := 1 / 100, detectLiquidityChanges := true,
    liquidityChangeThreshold := 10 }

/-- Claim C1's counterexample: on the 800/200 imbalanced pool with
trade-into-imbalance enabled, the emitted decision's direction is
ZERO_FOR_ONE (buying the scarce token1), not ONE_FOR_ZERO as the claim
assigns to liquidity0 > liquidity1. -/
theorem liquidity_imbalance_direction_counterexample :
    liquidityConfigW.tradeIntoImbalance = true ∧
    imbalancedMarketW.liquidity0 > imbalancedMarketW.liquidity1 ∧
    (liquidityShouldTrade 0 none imbalancedMarketW liquidityConfigW
      tradingSettingsW 1000000).shouldTrade = true ∧
    (liquidityShouldTrade 0 none imbalancedMarketW liquidityConfigW
      tradingSettingsW 1000000).direction = some SwapDirection.ZERO_FOR_ONE ∧
    some SwapDirection.ZERO_FOR_ONE ≠ some SwapDirection.ONE_FOR_ZERO := by
  refine ⟨rfl, by decide, ?_, ?_, by decide⟩
  · with_unfolding_all decide
  · with_unfolding_all decide

/-- Claim C1, corrected.  When both liquidity sides are positive, the
analysis flags an imbalance and the liquidity strategy emits a trade, then
with trade_into_imbalance the decision buys the scarcer token:
liquidity0 > liquidity1 yields direction ZERO_FOR_ONE (buy token1) and
liquidity1 > liquidity0 yields ONE_FOR_ZERO (buy token0); the directions are
inverted when trade_into_imbalance is false. -/
theorem liquidity_imbalance_direction (lastTrade : ℤ)
    (previousLiquidity : Option ℤ) (md : MarketData)
    (scfg : LiquidityConfig) (tcfg : TradingSettings) (now : ℤ)
    (h0 : 0 < md.liquidity0) (h1 : 0 < md.liquidity1)
    (himb : (analyzeLiquidity md scfg).isImbalanced = true)
    (hdec : (liquidityShouldTrade lastTrade previousLiquidity md scfg tcfg
      now).shouldTrade = true) :
    (scfg.tradeIntoImbalance = true →
      (md.liquidity0 > md.liquidity1 →
        (liquidityShouldTrade lastTrade previousLiquidity md scfg tcfg
          now).direction = some SwapDirection.ZERO_FOR_ONE) ∧
      (md.liquidity1 > md.liquidity0 →
        (liquidityShouldTrade lastTrade previousLiquidity md scfg tcfg
          now).direction = some SwapDirection.ONE_FOR_ZERO)) ∧
    (scfg.tradeIntoImbalance = false →
      (md.liquidity0 > md.liquidity1 →
        (liquidityShouldTrade lastTrade previousLiquidity md scfg tcfg
          now).direction = some SwapDirection.ONE_FOR_ZERO) ∧
      (md.liquidity1 > md.liquidity0 →
        (liquidityShouldTrade lastTrade previousLiquidity md scfg tcfg
          now).direction = some SwapDirection.ZERO_FOR_ONE)) := by
  obtain ⟨_, hdir, _⟩ := liquidityShouldTrade_trade_shape lastTrade
    previousLiquidity md scfg tcfg now hdec
  rw [hdir]
  unfold liquidityS3
  rw [liquiditySignals_direction_of_imbalanced _ _ _ himb]
  constructor
  · intro hinto
    constructor
    · intro hgt
      rw [analyzeLiquidity_scarcerSide_gt md scfg h0 h1 hgt]
      simp [hinto]
    · intro hlt
      rw [analyzeLiquidity_scarcerSide_lt md scfg h0 h1 hlt]
      simp [hinto]
  · intro hninto
    constructor
    · intro hgt
      rw [analyzeLiquidity_scarcerSide_gt md scfg h0 h1 hgt]
      simp [hninto]
    · intro hlt
      rw [analyzeLiquidity_scarcerSide_lt md scfg h0 h1 hlt]
      simp [hninto]

/-- Witness for `liquidity_imbalance_direction` on the 800/200 pool. -/
theorem liquidity_imbalance_direction_witness :
    (liquidityShouldTrade 0 none imbalancedMarketW liquidityConfigW
      tradingSettingsW 1000000).direction = some SwapDirection.ZERO_FOR_ONE :=
  ((liquidity_imbalance_direction 0 none imbalancedMarketW liquidityConfigW
      tradingSettingsW 1000000 (by decide) (by decide)
      (by with_unfolding_all decide) (by with_unfolding_all decide)).1
    rfl).1 (by decide)

theorem calculateStatistics_dataPoints (ema emaSquared : ℚ)
    (historyLength : ℕ) (currentPrice : ℚ) :
    (calculateStatistics ema emaSquared historyLength currentPrice).dataPoints =
      historyLength := by
  simp only [calculateStatistics]
  split_ifs <;> rfl

/-- Claim C6: for a mean-reversion evaluation, with the deviation thresholds
in their intended order, a z-score beyond the maximum threshold or below the
moderate threshold yields no trade; and (with volume confirmation disabled,
the cooldown clear, a positive price and enough data points) the zones
assign base confidence 0.9 from the extreme threshold on, 0.65 from the
strong threshold to the extreme one, and 0.4 from the moderate threshold to
the strong one, provided the configured minimum confidence does not reject
the zone. -/
theorem meanReversion_signal_zones (s : MeanRevPoolState) (md : MarketData)
    (scfg : MeanReversionConfig) (tcfg : TradingSettings) (now : ℤ)
    (hms : scfg.moderateDeviationThreshold ≤ scfg.strongDeviationThreshold)
    (hse : scfg.strongDeviationThreshold ≤ scfg.extremeDeviationThreshold) :
    (scfg.maxDeviationThreshold < |meanRevZScore s md scfg now| →
      (meanRevShouldTrade s md scfg tcfg now).1.shouldTrade = false) ∧
    (|meanRevZScore s md scfg now| < scfg.moderateDeviationThreshold →
      (meanRevShouldTrade s md scfg tcfg now).1.shouldTrade = false) ∧
    (scfg.requireVolumeConfirmation = false →
      ¬ ((now : ℚ) - (s.lastTrade : ℚ) < scfg.cooldownPeriod * 1000) →
      0 < md.currentPrice →
      scfg.minDataPoints ≤
        (updatePriceHistory s.priceHistory md.currentPrice now).length →
      |meanRevZScore s md scfg now| ≤ scfg.maxDeviationThreshold →
      ((scfg.extremeDeviationThreshold ≤ |meanRevZScore s md scfg now| →
          scfg.minConfidence ≤ 9 / 10 →
          (meanRevShouldTrade s md scfg tcfg now).1.shouldTrade = true ∧
            (meanRevShouldTrade s md scfg tcfg now).1.confidence = 9 / 10) ∧
       (scfg.strongDeviationThreshold ≤ |meanRevZScore s md scfg now| →
          |meanRevZScore s md scfg now| < scfg.extremeDeviationThreshold →
          scfg.minConfidence ≤ 13 / 20 →
          (meanRevShouldTrade s md scfg tcfg now).1.shouldTrade = true ∧
            (meanRevShouldTrade s md scfg tcfg now).1.confidence = 13 / 20) ∧
       (scfg.moderateDeviationThreshold ≤ |meanRevZScore s md scfg now| →
          |meanRevZScore s md scfg now| < scfg.strongDeviationThreshold →
          scfg.minConfidence ≤ 2 / 5 →
          (meanRevShouldTrade s md scfg tcfg now).1.shouldTrade = true ∧
            (meanRevShouldTrade s md scfg tcfg now).1.confidence = 2 / 5))) := by
  refine ⟨?_, ?_, ?_⟩
  · intro hmax
    by_cases h1 : (now : ℚ) - (s.lastTrade : ℚ) < scfg.cooldownPeriod * 1000
    · simp [meanRevShouldTrade, h1, noTradeDecision]
    by_cases h2 : md.currentPrice ≤ 0
    · simp [meanRevShouldTrade, h1, h2, noTradeDecision]
    by_cases h3 : (calculateStatistics
        (updateEMA s.ema s.emaSquared md.currentPrice scfg).1
        (updateEMA s.ema s.emaSquared md.currentPrice scfg).2
        (updatePriceHistory s.priceHistory md.currentPrice now).length
        md.currentPrice).dataPoints < scfg.minDataPoints
    · simp [meanRevShouldTrade, h1, h2, h3, noTradeDecision]
    have h4 : scfg.maxDeviationThreshold < |(calculateStatistics
        (updateEMA s.ema s.emaSquared md.currentPrice scfg).1
        (updateEMA s.ema s.emaSquared md.currentPrice scfg).2
        (updatePriceHistory s.priceHistory md.currentPrice now).length
        md.currentPrice).zScore| := by
      simpa [meanRevZScore] using hmax
    simp [meanRevShouldTrade, h1, h2, h3, h4, noTradeDecision]
  · intro hz
    have hz' : |(calculateStatistics
        (updateEMA s.ema s.emaSquared md.currentPrice scfg).1
        (updateEMA s.ema s.emaSquared md.currentPrice scfg).2
        (updatePriceHistory s.priceHistory md.currentPrice now).length
        md.currentPrice).zScore| < scfg.moderateDeviationThreshold := by
      simpa [meanRevZScore] using hz
    by_cases h1 : (now : ℚ) - (s.lastTrade : ℚ) < scfg.cooldownPeriod * 1000
    · simp [meanRevShouldTrade, h1, noTradeDecision]
    by_cases h2 : md.currentPrice ≤ 0
    · simp [meanRevShouldTrade, h1, h2, noTradeDecision]
    by_cases h3 : (calculateStatistics
        (updateEMA s.ema s.emaSquared md.currentPrice scfg).1
        (updateEMA s.ema s.emaSquared md.currentPrice scfg).2
        (updatePriceHistory s.priceHistory md.currentPrice now).length
        md.currentPrice).dataPoints < scfg.minDataPoints
    · simp [meanRevShouldTrade, h1, h2, h3, noTradeDecision]
    by_cases h4 : scfg.maxDeviationThreshold < |(calculateStatistics
        (updateEMA s.ema s.emaSquared md.currentPrice scfg).1
        (updateEMA s.ema s.emaSquared md.currentPrice scfg).2
        (updatePriceHistory s.priceHistory md.currentPrice now).length
        md.currentPrice).zScore|
    · simp [meanRevShouldTrade, h1, h2, h3, h4, noTradeDecision]
    have h5 : ¬ (scfg.extremeDeviationThreshold ≤ |(calculateStatistics
        (updateEMA s.ema s.emaSquared md.currentPrice scfg).1
        (updateEMA s.ema s.emaSquared md.currentPrice scfg).2
        (updatePriceHistory s.priceHistory md.currentPrice now).length
        md.currentPrice).zScore|) :=
      not_le.mpr (lt_of_lt_of_le hz' (le_trans hms hse))
    have h6 : ¬ (scfg.strongDeviationThreshold ≤ |(calculateStatistics
        (updateEMA s.ema s.emaSquared md.currentPrice scfg).1
        (updateEMA s.ema s.emaSquared md.currentPrice scfg).2
        (updatePriceHistory s.priceHistory md.currentPrice now).length
        md.currentPrice).zScore|) :=
      not_le.mpr (lt_of_lt_of_le hz' hms)
    have h7 : ¬ (scfg.moderateDeviationThreshold ≤ |(calculateStatistics
        (updateEMA s.ema s.emaSquared md.currentPrice scfg).1
        (updateEMA s.ema s.emaSquared md.currentPrice scfg).2
        (updatePriceHistory s.priceHistory md.currentPrice now).length
        md.currentPrice).zScore|) :=
      not_le.mpr hz'
    simp [meanRevShouldTrade, h1, h2, h3, h4, h5, h6, h7, noTradeDecision]
  · intro hvol hcool hp hdata hzmax
    have h2 : ¬ (md.currentPrice ≤ 0) := not_le.mpr hp
    have h3 : ¬ ((calculateStatistics
        (updateEMA s.ema s.emaSquared md.currentPrice scfg).1
        (updateEMA s.ema s.emaSquared md.currentPrice scfg).2
        (updatePriceHistory s.priceHistory md.currentPrice now).length
        md.currentPrice).dataPoints < scfg.minDataPoints) := by
      rw [calculateStatistics_dataPoints]
      exact not_lt.mpr hdata
    have h4 : ¬ (scfg.maxDeviationThreshold < |(calculateStatistics
        (updateEMA s.ema s.emaSquared md.currentPrice scfg).1
        (updateEMA s.ema s.emaSquared md.currentPrice scfg).2
        (updatePriceHistory s.priceHistory md.currentPrice now).length
        md.currentPrice).zScore|) := by
      apply not_lt.mpr
      simpa [meanRevZScore] using hzmax
    refine ⟨?_, ?_, ?_⟩
    · intro hz5 hminc
      have h5 : scfg.extremeDeviationThreshold ≤ |(calculateStatistics
          (updateEMA s.ema s.emaSquared md.currentPrice scfg).1
          (updateEMA s.ema s.emaSquared md.currentPrice scfg).2
          (updatePriceHistory s.priceHistory md.currentPrice now).length
          md.currentPrice).zScore| := by
        simpa [meanRevZScore] using hz5
      have h8 : ¬ ((9 : ℚ) / 10 < scfg.minConfidence) := not_lt.mpr hminc
      constructor
      · simp [meanRevShouldTrade, hcool, h2, h3, h4, h5, hvol, h8]
      · simp [meanRevShouldTrade, hcool, h2, h3, h4, h5, hvol, h8]
    · intro hz6a hz6b hminc
      have h5 : ¬ (scfg.extremeDeviationThreshold ≤ |(calculateStatistics
          (updateEMA s.ema s.emaSquared md.currentPrice scfg).1
          (updateEMA s.ema s.emaSquared md.currentPrice scfg).2
          (updatePriceHistory s.priceHistory md.currentPrice now).length
          md.currentPrice).zScore|) := by
        apply not_le.mpr
        simpa [meanRevZScore] using hz6b
      have h6 : scfg.strongDeviationThreshold ≤ |(calculateStatistics
          (updateEMA s.ema s.emaSquared md.currentPrice scfg).1
          (updateEMA s.ema s.emaSquared md.currentPrice scfg).2
          (updatePriceHistory s.priceHistory md.currentPrice now).length
          md.currentPrice).zScore| := by
        simpa [meanRevZScore] using hz6a
      have h8 : ¬ ((13 : ℚ) / 20 < scfg.minConfidence) := not_lt.mpr hminc
      constructor
      · simp [meanRevShouldTrade, hcool, h2, h3, h4, h5, h6, hvol, h8]
      · simp [meanRevShouldTrade, hcool, h2, h3, h4, h5, h6, hvol, h8]
    · intro hz7a hz7b hminc
      have h6 : ¬ (scfg.strongDeviationThreshold ≤ |(calculateStatistics
          (updateEMA s.ema s.emaSquared md.currentPrice scfg).1
          (updateEMA s.ema s.emaSquared md.currentPrice scfg).2
          (updatePriceHistory s.priceHistory md.currentPrice now).length
          md.currentPrice).zScore|) := by
        apply not_le.mpr
        simpa [meanRevZScore] using hz7b
      have h5 : ¬ (scfg.extremeDeviationThreshold ≤ |(calculateStatistics
          (updateEMA s.ema s.emaSquared md.currentPrice scfg).1
          (updateEMA s.ema s.emaSquared md.currentPrice scfg).2
          (updatePriceHistory s.priceHistory md.currentPrice now).length
          md.currentPrice).zScore|) := by
        apply not_le.mpr
        apply lt_of_lt_of_le _ hse
        simpa [meanRevZScore] using hz7b
      have h7 : scfg.moderateDeviationThreshold ≤ |(calculateStatistics
          (updateEMA s.ema s.emaSquared md.currentPrice scfg).1
          (updateEMA s.ema s.emaSquared md.currentPrice scfg).2
          (updatePriceHistory s.priceHistory md.currentPrice now).length
          md.currentPrice).zScore| := by
        simpa [meanRevZScore] using hz7a
      have h8 : ¬ ((2 : ℚ) / 5 < scfg.minConfidence) := not_lt.mpr hminc
      constructor
      · simp [meanRevShouldTrade, hcool, h2, h3, h4, h5, h6, h7, hvol, h8]
      · simp [meanRevShouldTrade, hcool, h2, h3, h4, h5, h6, h7, hvol, h8]

/-- Mean-reversion configuration for the concrete zone evaluation
(smoothing factor 1/2 via emaPeriod 3, zone thresholds 1/4, 3/4, 1, 2). -/
def meanRevConfigW : MeanReversionConfig :=
  { emaPeriod := 3, moderateDeviationThreshold := 1 / 4,
    strongDeviationThreshold := 3 / 4, extremeDeviationThreshold := 1,
    maxDeviationThreshold := 2, cooldownPeriod := 300, minConfidence := 3 / 10,
    requireVolumeConfirmation := false, volumeConfirmationRatioQ := 1 / 20,
    minDataPoints := 5, emaSmoothingFactor := none }

/-- Per-pool mean-reversion state whose EMAs give variance 4 (σ = 2) after
the next price 2 arrives. -/
def meanRevStateW : MeanRevPoolState :=
  { priceHistory := [(1, 0), (1, 1), (1, 2), (1, 3)], ema := some 0,
    emaSquared := some 6, lastTrade := 0 }

/-- Snapshot with price 2 feeding the mean-reversion evaluation. -/
def meanRevMarketW : MarketData :=
  { poolId := "pool-1", currentPrice := 2, priceChange1h := 0,
    priceChange24h := 0, totalLiquidity := 1000, liquidity0 := 500,
    liquidity1 := 500, volume1h := 0, volume24h := 0, recentSwaps := [],
    timestamp := 0 }

/-- Witness for `meanReversion_signal_zones`: the concrete evaluation lands
in the moderate zone (z = 1/2 against thresholds 1/4, 3/4) and emits
confidence 0.4. -/
theorem meanReversion_signal_zones_witness :
    (meanRevShouldTrade meanRevStateW meanRevMarketW meanRevConfigW
      tradingSettingsW 1000000).1.shouldTrade = true ∧
    (meanRevShouldTrade meanRevStateW meanRevMarketW meanRevConfigW
      tradingSettingsW 1000000).1.confidence = 2 / 5 :=
  ((meanReversion_signal_zones meanRevStateW meanRevMarketW meanRevConfigW
      tradingSettingsW 1000000 (by norm_num [meanRevConfigW])
      (by norm_num [meanRevConfigW])).2.2 rfl
    (by with_unfolding_all decide) (by with_unfolding_all decide)
    (by with_unfolding_all decide) (by with_unfolding_all decide)).2.2
    (by with_unfolding_all decide) (by with_unfolding_all decide)
    (by with_unfolding_all decide)

theorem calculateBaseAmount_bounds (c : ℚ) (t : TradingSettings)
    (hmm : t.minAmountIn ≤ t.maxAmountIn) (h0 : 0 ≤ c) (h1 : c ≤ 1) :
    t.minAmountIn ≤ calculateBaseAmount c t ∧
      calculateBaseAmount c t ≤ t.maxAmountIn := by
  exact scale_floor_bounds t.minAmountIn t.maxAmountIn hmm c h0 h1

theorem calculateReversionAmount_bounds (c : ℚ) (t : TradingSettings)
    (hmm : t.minAmountIn ≤ t.maxAmountIn) (h0 : 0 ≤ c) (h1 : c ≤ 1) :
    t.minAmountIn ≤ calculateReversionAmount c t ∧
      calculateReversionAmount c t ≤ t.maxAmountIn := by
  exact scale_floor_bounds t.minAmountIn t.maxAmountIn hmm c h0 h1

theorem calculateArbitrageAmount_bounds (op : ArbitrageOpportunity)
    (t : TradingSettings) (hmm : t.minAmountIn ≤ t.maxAmountIn)
    (hc0 : 0 ≤ op.confidence) (hsp : 0 ≤ op.spreadPercent) :
    t.minAmountIn ≤ calculateArbitrageAmount op t ∧
      calculateArbitrageAmount op t ≤ t.maxAmountIn := by
  have h0 : 0 ≤ min (op.confidence * (op.spreadPercent / 2)) 1 :=
    le_min (mul_nonneg hc0 (by positivity)) (by norm_num)
  have h1 : min (op.confidence * (op.spreadPercent / 2)) 1 ≤ 1 :=
    min_le_right _ _
  exact scale_floor_bounds t.minAmountIn t.maxAmountIn hmm _ h0 h1

theorem calculateLiquidityAmount_bounds (analysis : LiquidityAnalysis)
    (confidence : ℚ) (t : TradingSettings) (scfg : LiquidityConfig)
    (hmm : t.minAmountIn ≤ t.maxAmountIn) :
    t.minAmountIn ≤ calculateLiquidityAmount analysis confidence t scfg ∧
      calculateLiquidityAmount analysis confidence t scfg ≤ t.maxAmountIn := by
  simp only [calculateLiquidityAmount]
  split_ifs <;> omega

theorem vol_adjusted_conf_mem (b : ℚ) (h0 : 0 ≤ b) (h1 : b ≤ 1)
    (rv cv : Bool) :
    0 ≤ (if rv then (if cv then min (b * (6 / 5)) 1 else b * (7 / 10)) else b) ∧
      (if rv then (if cv then min (b * (6 / 5)) 1 else b * (7 / 10)) else b) ≤ 1 := by
  cases rv with
  | false => simpa using ⟨h0, h1⟩
  | true =>
    cases cv with
    | false =>
      simp only [Bool.false_eq_true, if_false, if_true]
      constructor <;> nlinarith
    | true =>
      simp only [if_true]
      exact ⟨le_min (by nlinarith) (by norm_num), min_le_right _ _⟩

/-- Claim C3, corrected.  With min_amount_in ≤ max_amount_in, every positive
decision of any of the four strategies carries an amount within the
configured bounds, with no further hypothesis on the config; confidence
lies in [0, 1] for the momentum, arbitrage and mean-reversion strategies
unconditionally, and for the liquidity strategy under a positive
imbalance_threshold (a negative threshold can push the imbalance
confidence below 0: see `decision_bounds_counterexample`). -/
theorem decision_bounds (tcfg : TradingSettings)
    (hmm : tcfg.minAmountIn ≤ tcfg.maxAmountIn) :
    (∀ (lastTrade : ℤ) (md : MarketData) (scfg : MomentumConfig) (now : ℤ),
      (momentumShouldTrade lastTrade md scfg tcfg now).shouldTrade = true →
      (∃ a : ℤ, (momentumShouldTrade lastTrade md scfg tcfg now).amountIn =
          some a ∧ tcfg.minAmountIn ≤ a ∧ a ≤ tcfg.maxAmountIn) ∧
      0 ≤ (momentumShouldTrade lastTrade md scfg tcfg now).confidence ∧
      (momentumShouldTrade lastTrade md scfg tcfg now).confidence ≤ 1) ∧
    (∀ (lastTrade : ℤ) (externalPrices : List ReferencePrice)
        (md : MarketData) (scfg : ArbitrageConfig) (now : ℤ),
      (arbitrageShouldTrade lastTrade externalPrices md scfg tcfg
        now).shouldTrade = true →
      (∃ a : ℤ, (arbitrageShouldTrade lastTrade externalPrices md scfg tcfg
          now).amountIn = some a ∧ tcfg.minAmountIn ≤ a ∧ a ≤ tcfg.maxAmountIn) ∧
      0 ≤ (arbitrageShouldTrade lastTrade externalPrices md scfg tcfg
        now).confidence ∧
      (arbitrageShouldTrade lastTrade externalPrices md scfg tcfg
        now).confidence ≤ 1) ∧
    (∀ (lastTrade : ℤ) (previousLiquidity : Option ℤ) (md : MarketData)
        (scfg : LiquidityConfig) (now : ℤ),
      (liquidityShouldTrade lastTrade previousLiquidity md scfg tcfg
        now).shouldTrade = true →
      (∃ a : ℤ, (liquidityShouldTrade lastTrade previousLiquidity md scfg tcfg
          now).amountIn = some a ∧ tcfg.minAmountIn ≤ a ∧ a ≤ tcfg.maxAmountIn) ∧
      (0 < scfg.imbalanceThreshold →
        0 ≤ (liquidityShouldTrade lastTrade previousLiquidity md scfg tcfg
          now).confidence ∧
        (liquidityShouldTrade lastTrade previousLiquidity md scfg tcfg
          now).confidence ≤ 1)) ∧
    (∀ (s : MeanRevPoolState) (md : MarketData) (scfg : MeanReversionConfig)
        (now : ℤ),
      (meanRevShouldTrade s md scfg tcfg now).1.shouldTrade = true →
      (∃ a : ℤ, (meanRevShouldTrade s md scfg tcfg now).1.amountIn =
          some a ∧ tcfg.minAmountIn ≤ a ∧ a ≤ tcfg.maxAmountIn) ∧
      0 ≤ (meanRevShouldTrade s md scfg tcfg now).1.confidence ∧
      (meanRevShouldTrade s md scfg tcfg now).1.confidence ≤ 1) := by
  refine ⟨?_, ?_, ?_, ?_⟩
  · intro lastTrade md scfg now hdec
    obtain ⟨hconf, hamt⟩ := momentumShouldTrade_trade_shape lastTrade md scfg
      tcfg now hdec
    have hcm := calculateMomentumConfidence_mem md.priceChange1h
      md.priceChange24h scfg
    have hmem := trend_adjusted_conf_mem _ hcm.1 hcm.2 (confirmTrend
      md.recentSwaps
      (decide (md.priceChange1h * scfg.shortTermWeight +
        md.priceChange24h * scfg.longTermWeight > 0))
      scfg.trendConfirmationSwaps)
    rw [← hconf] at hmem
    have h0 : 0 ≤ (momentumShouldTrade lastTrade md scfg tcfg now).confidence :=
      le_trans (by norm_num) hmem.1
    refine ⟨⟨_, hamt, ?_, ?_⟩, h0, hmem.2⟩
    · exact (calculateBaseAmount_bounds _ tcfg hmm h0 hmem.2).1
    · exact (calculateBaseAmount_bounds _ tcfg hmm h0 hmem.2).2
  · intro lastTrade externalPrices md scfg now hdec
    obtain ⟨op, hmem, hconf, hamt⟩ := arbitrageShouldTrade_trade_shape
      lastTrade externalPrices md scfg tcfg now hdec
    obtain ⟨hc1, hc2, hsp⟩ := detectOpportunities_confidence_mem _ _ _ _ hmem
    have hb := calculateArbitrageAmount_bounds op tcfg hmm
      (le_trans (by norm_num) hc1) hsp
    refine ⟨⟨_, hamt, hb.1, hb.2⟩, ?_, ?_⟩
    · rw [hconf]
      linarith
    · rw [hconf]
      exact hc2
  · intro lastTrade previousLiquidity md scfg now hdec
    obtain ⟨hconf, _, hamt⟩ := liquidityShouldTrade_trade_shape lastTrade
      previousLiquidity md scfg tcfg now hdec
    have hb := calculateLiquidityAmount_bounds (analyzeLiquidity md scfg)
      ((liquidityS3 previousLiquidity md scfg).confidence) tcfg scfg hmm
    refine ⟨⟨_, hamt, hb.1, hb.2⟩, ?_⟩
    intro hthr
    have hcb := liquiditySignals_confidence_mem (analyzeLiquidity md scfg)
      (scfg.detectLiquidityChanges && detectLiquidityChange previousLiquidity
        md.totalLiquidity scfg.liquidityChangeThreshold) scfg hthr
      (fun h => (analyzeLiquidity_imbalanced_iff md scfg).mp h)
    constructor
    · rw [hconf]
      exact hcb.1
    · rw [hconf]
      exact hcb.2
  · intro s md scfg now hdec
    obtain ⟨b, hb, hconf, hamt⟩ := meanRevShouldTrade_trade_shape s md scfg
      tcfg now hdec
    have hb01 : 0 ≤ b ∧ b ≤ 1 := by
      rcases hb with h | h | h <;> subst h <;> norm_num
    have hadj := vol_adjusted_conf_mem b hb01.1 hb01.2
      scfg.requireVolumeConfirmation (checkVolumeConfirmation md scfg)
    rw [← hconf] at hadj
    have hbnd := calculateReversionAmount_bounds
      ((meanRevShouldTrade s md scfg tcfg now).1.confidence) tcfg hmm
      hadj.1 hadj.2
    exact ⟨⟨_, hamt, hbnd.1, hbnd.2⟩, hadj.1, hadj.2⟩

/-- Claim C3's counterexample: with a negative imbalance_threshold and a
negative min_confidence (a config the claim quantifies over, with
min_amount_in ≤ max_amount_in), the liquidity strategy emits a decision with
confidence −1.7 < 0. -/
theorem decision_bounds_counterexample :
    tradingSettingsW.minAmountIn ≤ tradingSettingsW.maxAmountIn ∧
    (liquidityShouldTrade 0 none imbalancedMarketW
      { liquidityConfigW with imbalanceThreshold := -1, minConfidence := -10 }
      tradingSettingsW 1000000).shouldTrade = true ∧
    (liquidityShouldTrade 0 none imbalancedMarketW
      { liquidityConfigW with imbalanceThreshold := -1, minConfidence := -10 }
      tradingSettingsW 1000000).confidence < 0 := by
  refine ⟨by decide, ?_, ?_⟩
  · with_unfolding_all decide
  · with_unfolding_all decide

/-- Momentum configuration with thresholds 1%/2% and weights 0.6/0.4, as in
the spec's momentum round-trip scenario. -/
def momentumConfigW : MomentumConfig :=
  { momentumThreshold1h := 1, momentumThreshold24h := 2,
    shortTermWeight := 3 / 5, longTermWeight := 2 / 5, minVolumeThreshold := 0,
    cooldownPeriod := 300, maxVolatilityThreshold := 20,
    requireVolumeConfirmation := false, trendConfirmationSwaps := 5 }

/-- Snapshot with momentum +3%/+8% and a five-swap window of which exactly
three (60%) align with the uptrend. -/
def momentumMarketW : MarketData :=
  { poolId := "pool-1", currentPrice := 1, priceChange1h := 3,
    priceChange24h := 8, totalLiquidity := 1000, liquidity0 := 500,
    liquidity1 := 500, volume1h := 500, volume24h := 0,
    recentSwaps := [{ zeroForOne := false }, { zeroForOne := false },
      { zeroForOne := false }, { zeroForOne := true },
      { zeroForOne := true }], timestamp := 0 }

/-- Witness for `decision_bounds`: the momentum clause instantiated on a
concrete positive decision. -/
theorem decision_bounds_witness :
    (∃ a : ℤ, (momentumShouldTrade 0 momentumMarketW momentumConfigW
        tradingSettingsW 1000000).amountIn = some a ∧
      tradingSettingsW.minAmountIn ≤ a ∧ a ≤ tradingSettingsW.maxAmountIn) ∧
    0 ≤ (momentumShouldTrade 0 momentumMarketW momentumConfigW
      tradingSettingsW 1000000).confidence ∧
    (momentumShouldTrade 0 momentumMarketW momentumConfigW tradingSettingsW
      1000000).confidence ≤ 1 :=
  (decision_bounds tradingSettingsW (by decide)).1 0 momentumMarketW
    momentumConfigW 1000000 (by with_unfolding_all decide)

/-- Momentum configuration with a large 1h threshold and a tiny 24h
threshold, driving the weighted confidence to its lower clamp. -/
def momentumLowSignalConfigW : MomentumConfig :=
  { momentumThreshold1h := 10, momentumThreshold24h := 1 / 10000,
    shortTermWeight := 3 / 5, longTermWeight := 2 / 5, minVolumeThreshold := 0,
    cooldownPeriod := 300, maxVolatilityThreshold := 20,
    requireVolumeConfirmation := false, trendConfirmationSwaps := 5 }

/-- Snapshot with momentum +11% and −0.00001% (misaligned signs) and no
recent swaps, so the trend is unconfirmed. -/
def momentumLowSignalMarketW : MarketData :=
  { poolId := "pool-1", currentPrice := 1, priceChange1h := 11,
    priceChange24h := -1 / 100000, totalLiquidity := 1000, liquidity0 := 500,
    liquidity1 := 500, volume1h := 0, volume24h := 0, recentSwaps := [],
    timestamp := 0 }

/-- Claim C4's counterexample: a momentum decision whose confidence is
0.07 < 0.1 — the ×0.7 trend reduction is applied after the [0.1, 1.0]
clamp, so the final value can leave the claimed interval. -/
theorem momentum_confidence_range_counterexample :
    (momentumShouldTrade 0 momentumLowSignalMarketW momentumLowSignalConfigW
      tradingSettingsW 1000000).shouldTrade = true ∧
    (momentumShouldTrade 0 momentumLowSignalMarketW momentumLowSignalConfigW
      tradingSettingsW 1000000).confidence = 7 / 100 ∧
    ¬ ((1 : ℚ) / 10 ≤ 7 / 100) := by
  refine ⟨?_, ?_, by norm_num⟩
  · with_unfolding_all decide
  · with_unfolding_all decide

/-- Claim C4, corrected.  The emitted momentum confidence is exactly the
weighted combination of the capped 1h and 24h signals with a ±0.15
alignment bonus, clamped to [0.1, 1.0] and then adjusted by the
trend-confirmation multiplier (×1.2 capped at 1, or ×0.7); the final value
lies in [0.07, 1.0] — not in [0.1, 1.0] as claimed, since the ×0.7
reduction applies after the clamp (see
`momentum_confidence_range_counterexample`). -/
theorem momentum_confidence_formula (lastTrade : ℤ) (md : MarketData)
    (scfg : MomentumConfig) (tcfg : TradingSettings) (now : ℤ)
    (hdec : (momentumShouldTrade lastTrade md scfg tcfg now).shouldTrade =
      true) :
    (momentumShouldTrade lastTrade md scfg tcfg now).confidence =
      (if confirmTrend md.recentSwaps
          (decide (md.priceChange1h * scfg.shortTermWeight +
            md.priceChange24h * scfg.longTermWeight > 0))
          scfg.trendConfirmationSwaps then
        min ((max (1 / 10) (min
          (min (|md.priceChange1h| / (scfg.momentumThreshold1h * 3)) 1 *
              scfg.shortTermWeight +
            min (|md.priceChange24h| / (scfg.momentumThreshold24h * 3)) 1 *
              scfg.longTermWeight +
            (if signOf md.priceChange1h = signOf md.priceChange24h then
              3 / 20 else -(3 / 20))) 1)) * (6 / 5)) 1
       else
        (max (1 / 10) (min
          (min (|md.priceChange1h| / (scfg.momentumThreshold1h * 3)) 1 *
              scfg.shortTermWeight +
            min (|md.priceChange24h| / (scfg.momentumThreshold24h * 3)) 1 *
              scfg.longTermWeight +
            (if signOf md.priceChange1h = signOf md.priceChange24h then
              3 / 20 else -(3 / 20))) 1)) * (7 / 10)) ∧
    7 / 100 ≤ (momentumShouldTrade lastTrade md scfg tcfg now).confidence ∧
    (momentumShouldTrade lastTrade md scfg tcfg now).confidence ≤ 1 := by
  obtain ⟨hconf, _⟩ := momentumShouldTrade_trade_shape lastTrade md scfg tcfg
    now hdec
  have hcm := calculateMomentumConfidence_mem md.priceChange1h
    md.priceChange24h scfg
  have hmem := trend_adjusted_conf_mem _ hcm.1 hcm.2 (confirmTrend
    md.recentSwaps
    (decide (md.priceChange1h * scfg.shortTermWeight +
      md.priceChange24h * scfg.longTermWeight > 0))
    scfg.trendConfirmationSwaps)
  rw [← hconf] at hmem
  refine ⟨?_, hmem.1, hmem.2⟩
  rw [hconf]
  rfl

/-- Witness for `momentum_confidence_formula`: the bounds instantiated on a
concrete positive decision. -/
theorem momentum_confidence_formula_witness :
    7 / 100 ≤ (momentumShouldTrade 0 momentumLowSignalMarketW
      momentumLowSignalConfigW tradingSettingsW 1000000).confidence ∧
    (momentumShouldTrade 0 momentumLowSignalMarketW momentumLowSignalConfigW
      tradingSettingsW 1000000).confidence ≤ 1 :=
  (momentum_confidence_formula 0 momentumLowSignalMarketW
    momentumLowSignalConfigW tradingSettingsW 1000000
    (by with_unfolding_all decide)).2

theorem confirmTrend_short (recentSwaps : List RecentSwap)
    (expectingUptrend : Bool) (minSwaps : ℕ)
    (h : recentSwaps.length < minSwaps) :
    confirmTrend recentSwaps expectingUptrend minSwaps = false := by
  simp only [confirmTrend]
  rw [if_pos h]

theorem confirmTrend_counts (recentSwaps : List RecentSwap)
    (expectingUptrend : Bool) (minSwaps : ℕ)
    (hlen : minSwaps ≤ recentSwaps.length) :
    confirmTrend recentSwaps expectingUptrend minSwaps =
      decide (5 * alignedCount (recentSwaps.take minSwaps) expectingUptrend >
        3 * minSwaps) := by
  simp only [confirmTrend]
  rw [if_neg (not_lt.mpr hlen)]
  have hlen2 : (recentSwaps.take minSwaps).length = minSwaps := by
    rw [List.length_take]
    exact min_eq_left hlen
  rw [hlen2]
  rcases Nat.eq_zero_or_pos minSwaps with h0 | hpos
  · subst h0
    simp [alignedCount]
    norm_num
  · have hn : (0 : ℚ) < (minSwaps : ℚ) := by exact_mod_cast hpos
    rw [decide_eq_decide, gt_iff_lt, gt_iff_lt,
      div_lt_div_iff₀ (by norm_num) hn]
    constructor
    · intro h
      have h2 : 3 * minSwaps <
          alignedCount (recentSwaps.take minSwaps) expectingUptrend * 5 := by
        exact_mod_cast h
      omega
    · intro h
      have h2 : 3 * minSwaps <
          alignedCount (recentSwaps.take minSwaps) expectingUptrend * 5 := by
        omega
      exact_mod_cast h2

/-- Claim C5, corrected.  The ×1.2 (capped) multiplier applies only when
STRICTLY more than 60% of the window aligns with the composite's sign; at
exactly 60%, and whenever fewer than trend_confirmation_swaps recent swaps
are available, the ×0.7 multiplier applies instead. -/
theorem trend_confirmation_multiplier (lastTrade : ℤ) (md : MarketData)
    (scfg : MomentumConfig) (tcfg : TradingSettings) (now : ℤ)
    (hdec : (momentumShouldTrade lastTrade md scfg tcfg now).shouldTrade =
      true) :
    (scfg.trendConfirmationSwaps ≤ md.recentSwaps.length →
      (momentumShouldTrade lastTrade md scfg tcfg now).confidence =
        (if 5 * alignedCount (md.recentSwaps.take scfg.trendConfirmationSwaps)
            (decide (md.priceChange1h * scfg.shortTermWeight +
              md.priceChange24h * scfg.longTermWeight > 0)) >
            3 * scfg.trendConfirmationSwaps then
          min (calculateMomentumConfidence md.priceChange1h md.priceChange24h
            scfg * (6 / 5)) 1
         else calculateMomentumConfidence md.priceChange1h md.priceChange24h
          scfg * (7 / 10))) ∧
    (md.recentSwaps.length < scfg.trendConfirmationSwaps →
      (momentumShouldTrade lastTrade md scfg tcfg now).confidence =
        calculateMomentumConfidence md.priceChange1h md.priceChange24h scfg *
          (7 / 10)) := by
  obtain ⟨hconf, _⟩ := momentumShouldTrade_trade_shape lastTrade md scfg tcfg
    now hdec
  constructor
  · intro hlen
    rw [hconf, confirmTrend_counts _ _ _ hlen]
    simp only [decide_eq_true_eq]
  · intro hlen
    rw [hconf, confirmTrend_short _ _ _ hlen]
    simp

/-- Claim C5's counterexample: a five-swap window with exactly three aligned
swaps (60%) does not confirm the trend — the clamped confidence 1 is
multiplied by 0.7 to 0.7 instead of the claimed min(1 × 1.2, 1) = 1. -/
theorem trend_confirmation_boundary_counterexample :
    momentumConfigW.trendConfirmationSwaps = 5 ∧
    alignedCount (momentumMarketW.recentSwaps.take 5) true = 3 ∧
    calculateMomentumConfidence momentumMarketW.priceChange1h
      momentumMarketW.priceChange24h momentumConfigW = 1 ∧
    (momentumShouldTrade 0 momentumMarketW momentumConfigW tradingSettingsW
      1000000).shouldTrade = true ∧
    (momentumShouldTrade 0 momentumMarketW momentumConfigW tradingSettingsW
      1000000).confidence = 7 / 10 ∧
    ¬ ((7 : ℚ) / 10 = min ((1 : ℚ) * (6 / 5)) 1) := by
  refine ⟨rfl, by decide, ?_, ?_, ?_, ?_⟩
  · with_unfolding_all decide
  · with_unfolding_all decide
  · with_unfolding_all decide
  · with_unfolding_all decide

/-- Witness for `trend_confirmation_multiplier` at the exactly-60% window. -/
theorem trend_confirmation_multiplier_witness :
    (momentumShouldTrade 0 momentumMarketW momentumConfigW tradingSettingsW
      1000000).confidence =
      (if 5 * alignedCount (momentumMarketW.recentSwaps.take
          momentumConfigW.trendConfirmationSwaps)
          (decide (momentumMarketW.priceChange1h *
            momentumConfigW.shortTermWeight +
            momentumMarketW.priceChange24h *
            momentumConfigW.longTermWeight > 0)) >
          3 * momentumConfigW.trendConfirmationSwaps then
        min (calculateMomentumConfidence momentumMarketW.priceChange1h
          momentumMarketW.priceChange24h momentumConfigW * (6 / 5)) 1
       else calculateMomentumConfidence momentumMarketW.priceChange1h
        momentumMarketW.priceChange24h momentumConfigW * (7 / 10)) :=
  (trend_confirmation_multiplier 0 momentumMarketW momentumConfigW
    tradingSettingsW 1000000 (by with_unfolding_all decide)).1 (by decide)

/-- Witness for `meanReversion_reject_frame`: a call 1000 ms after the last
trade, within the 300 s cooldown, changes nothing. -/
theorem meanReversion_reject_frame_witness :
    meanRevShouldTrade meanRevStateW meanRevMarketW meanRevConfigW
      tradingSettingsW 1000 = (noTradeDecision 1000, meanRevStateW) :=
  meanReversion_reject_frame meanRevStateW meanRevMarketW meanRevConfigW
    tradingSettingsW 1000 (Or.inl (by with_unfolding_all decide))

/-- A completely one-sided pool: liquidity0 = 0, liquidity1 = 500. -/
def oneSidedMarketW : MarketData :=
  { poolId := "pool-1", currentPrice := 1, priceChange1h := 0,
    priceChange24h := 0, totalLiquidity := 500, liquidity0 := 0,
    liquidity1 := 500, volume1h := 0, volume24h := 0, recentSwaps := [],
    timestamp := 0 }

/-- Witness for `zero_side_liquidity_balanced` on the one-sided pool. -/
theorem zero_side_liquidity_balanced_witness :
    (analyzeLiquidity oneSidedMarketW liquidityConfigW).imbalanceRatioQ = 1 ∧
    (analyzeLiquidity oneSidedMarketW liquidityConfigW).scarcerSide =
      ScarcerSide.balanced ∧
    (1 < liquidityConfigW.imbalanceThreshold →
      (analyzeLiquidity oneSidedMarketW liquidityConfigW).isImbalanced =
        false) :=
  zero_side_liquidity_balanced oneSidedMarketW liquidityConfigW (Or.inl rfl)
